import Mathlib

/-!
Verification of the task lifecycle and build-pipeline engine of the
vsix build-trigger service.  The Python sources come in two variants:
`vsix_build_service/build_service.py` (the "svc" variant) and
`vsix_remote_build/host_build_service/build_service.py` (the "host"
variant).  We embed the branch-synchronization routine (`fetch_branch`),
the build pipeline (`execute_npm_commands` with its inner
`append_task_log`), the artifact lookup (`find_latest_vsix`,
`api_get_artifact`), the submission handler, and the worker loop of both
variants, and prove the specified properties about them.

External effects are modelled by environments: a `GitEnv`/`GitEnvSvc`
records the outcome of each git subprocess invocation (the values the
embedded `git_cmd` wrapper would return), and a `BuildEnv` records the
outcome of each of the three npm build steps together with the contents
of the artifacts directory.  Commands issued to the shell are collected
in an explicit trace so that ordering and interpolation properties can
be stated.
-/

namespace VsixBuild

/-! ### Python string primitives, re-implemented structurally -/

/-- Characters stripped by Python `str.strip()`. -/
def isPyWs (c : Char) : Bool :=
  c == ' ' || c == '\t' || c == '\n' || c == '\r' || c == '\x0b' || c == '\x0c'

/-- Separator characters of the banner-line filter: the character set `=-*`. -/
def isSep (c : Char) : Bool :=
  c == '=' || c == '-' || c == '*'

/-- Strip leading and trailing Python whitespace from a character list. -/
def stripChars (l : List Char) : List Char :=
  ((l.dropWhile isPyWs).reverse.dropWhile isPyWs).reverse

/-- Python `str.strip()`. -/
def pyStrip (s : String) : String :=
  ⟨stripChars s.data⟩

/-- Python `str.split(chr(10))` on the underlying character list:
always returns at least one (possibly empty) segment. -/
def splitNl : List Char → List (List Char)
  | [] => [[]]
  | c :: cs =>
    if c = '\n' then [] :: splitNl cs
    else
      match splitNl cs with
      | [] => [[c]]
      | r :: rs => (c :: r) :: rs

/-- Python `str.split(chr(10))` returning strings. -/
def pyLines (s : String) : List String :=
  (splitNl s.data).map fun l => ⟨l⟩

/-- Whether `pat` occurs as a contiguous sublist of `l` (Python `pat in s`). -/
def subListOf (pat : List Char) : List Char → Bool
  | [] => pat.isEmpty
  | c :: t => List.isPrefixOf pat (c :: t) || subListOf pat t

/-- Python substring test `pat in s`. -/
def containsSub (s pat : String) : Bool :=
  subListOf pat.data s.data

/-- Concatenation of a list of strings, in order. -/
def strConcat : List String → String
  | [] => ""
  | s :: rest => s ++ strConcat rest

/-- Join a list of strings with a newline between consecutive elements,
as produced by line-oriented command output. -/
def joinNl : List String → String
  | [] => ""
  | [s] => s
  | s :: rest => s ++ "\n" ++ joinNl rest

/-- The decimal digit character for `d % 10`, as Python `str` renders it. -/
def decDigit (d : Nat) : Char :=
  if d = 0 then '0' else if d = 1 then '1' else if d = 2 then '2'
  else if d = 3 then '3' else if d = 4 then '4' else if d = 5 then '5'
  else if d = 6 then '6' else if d = 7 then '7' else if d = 8 then '8' else '9'

/-- Decimal digit rendering with explicit fuel (structural recursion so that
the kernel can evaluate it); `fuel ≥ 1 + number of digits` suffices. -/
def natDigitsAux : Nat → Nat → List Char
  | 0, _ => []
  | fuel + 1, n =>
    if n < 10 then [decDigit n]
    else natDigitsAux fuel (n / 10) ++ [decDigit (n % 10)]

/-- Decimal digit list of a natural number, most significant first
(Python `str` of a nonnegative int). -/
def natDigits (n : Nat) : List Char :=
  natDigitsAux (n + 1) n

/-- Python `str` of an int: optional minus sign followed by decimal digits. -/
def intStr (i : Int) : String :=
  match i with
  | .ofNat n => ⟨natDigits n⟩
  | .negSucc n => "-" ++ (⟨natDigits (n + 1)⟩ : String)

/-- First segment of `s` before a newline (Python `s.split(chr(10))[0]`). -/
def firstLine (s : String) : String :=
  match splitNl s.data with
  | [] => ""
  | l :: _ => ⟨l⟩

/-! ### The last-significant-line extraction of `append_task_log` -/

/-- The per-line test of `append_task_log`: strip the line; it is kept when
nonempty and not composed solely of the separator characters `=-*`;
the kept value is the stripped line. -/
def lineMsg (line : List Char) : Option (List Char) :=
  let s := stripChars line
  if !s.isEmpty && !s.all isSep then some s else none

/-- The code path of `append_task_log`: strip the whole chunk, split into
lines, scan from the last line upwards, return the first line kept by
`lineMsg` (source: `content.strip().split(...)` then a reversed loop). -/
def lastMsgOf (content : List Char) : Option (List Char) :=
  (splitNl (stripChars content)).reverse.findSome? lineMsg

/-- The specified extraction: the last line of the appended content itself
(no whole-chunk strip) that is non-blank after stripping and not composed
solely of separator characters, returned stripped. -/
def lastMsgSpec (content : List Char) : Option (List Char) :=
  (splitNl content).reverse.findSome? lineMsg

/-! ### Task state and in-memory/file log accumulation -/

/-- The mutable per-task fields touched by the pipeline: in-memory log,
log-file content on disk, last significant message (`error_message`),
lifecycle status and result artifact name. -/
structure TaskState where
  logs : String
  fileContent : String
  errorMessage : String
  status : String
  resultFile : String
  deriving Repr, DecidableEq

/-- Fields of a fresh `BuildTask` as set in `BuildTask.__init__`. -/
def initialTaskState : TaskState :=
  { logs := "", fileContent := "", errorMessage := "", status := "queued", resultFile := "" }

/-- Immutable per-task data used in log headers and trailers. -/
structure TaskInfo where
  taskId : String
  branch : String
  startTime : String
  endTime : String
  deriving Repr, DecidableEq

/-- The inner helper `append_task_log` of `execute_npm_commands`: append the
chunk to the in-memory log and to the log file, then recompute the
last-message field from the chunk (identical in both variants). -/
def append_task_log (st : TaskState) (content : String) : TaskState :=
  let st1 : TaskState :=
    { st with logs := st.logs ++ content, fileContent := st.fileContent ++ content }
  match lastMsgOf content.data with
  | some m => { st1 with errorMessage := ⟨m⟩ }
  | none => st1

/-! ### Build steps and the npm pipeline -/

/-- Outcome of one subprocess build step: it either ran to completion with
an exit code and captured stdout/stderr, or hit the timeout. -/
inductive StepResult where
  | exited (code : Int) (stdout : String) (stderr : String)
  | timedOut
  deriving Repr, DecidableEq

/-- Environment of one pipeline run: the outcome of each of the three
steps, and the artifacts directory as (filename, mtime) pairs. -/
structure BuildEnv where
  install : StepResult
  build : StepResult
  package : StepResult
  artifacts : List (String × Nat)
  deriving Repr, DecidableEq

/-- The configured per-step timeout (config.py: `BUILD_TIMEOUT = 300`). -/
def BUILD_TIMEOUT : Nat := 300

/-- A row of 60 `=` characters, as in the Python log banners. -/
def sep60 : String :=
  ⟨List.replicate 60 '='⟩

/-- The banner written before each step:
`f"\n{eq60}\n执行: {cmd_name}\n" + eq60 + "\n"`. -/
def headerFor (cmdName : String) : String :=
  "\n" ++ sep60 ++ "\n执行: " ++ cmdName ++ "\n" ++ sep60 ++ "\n"

/-- The header `execute_npm_commands` writes when (re)creating the task log
file: task id, branch, start time, a banner row, blank line. -/
def initHeader (t : TaskInfo) : String :=
  "任务ID: " ++ t.taskId ++ "\n分支: " ++ t.branch ++ "\n开始时间: " ++
    t.startTime ++ "\n" ++ sep60 ++ "\n\n"

/-- Svc variant, per-step stdout handling: when stdout is nonempty it is
split into lines and each line is appended followed by a newline. -/
def appendStdoutSvc (st : TaskState) (out : String) : TaskState :=
  if out = "" then st
  else (pyLines out).foldl (fun s l => append_task_log s (l ++ "\n")) st

/-- Svc variant, per-step stderr handling: each non-blank stderr line is
appended prefixed with the error-stream marker `[stderr] `. -/
def appendStderrSvc (st : TaskState) (err : String) : TaskState :=
  if err = "" then st
  else (pyLines err).foldl
    (fun s l => if pyStrip l = "" then s else append_task_log s ("[stderr] " ++ l ++ "\n")) st

/-- Svc variant, one pipeline step: append the banner, the processed
stdout/stderr, and on a non-zero exit or a timeout mark the task failed,
append a failure marker and report the error message. -/
def runStepSvc (st0 : TaskState) (cmdName : String) (res : StepResult) :
    TaskState × Option String :=
  let st := append_task_log st0 (headerFor cmdName)
  match res with
  | .exited code out err =>
    let st := appendStdoutSvc st out
    let st := appendStderrSvc st err
    if code ≠ 0 then
      let e := cmdName ++ " 执行失败 (exit code: " ++ intStr code ++ ")"
      let st : TaskState := { st with errorMessage := e, status := "failed" }
      (append_task_log st ("\n[失败] " ++ e ++ "\n"), some e)
    else (st, none)
  | .timedOut =>
    let e := cmdName ++ " 执行超时 (>" ++ intStr (Int.ofNat BUILD_TIMEOUT) ++ "s)"
    let st : TaskState := { st with errorMessage := e, status := "failed" }
    (append_task_log st ("\n[超时] " ++ e ++ "\n"), some e)

/-- Host variant, one pipeline step: same banner, but the raw stdout and
stderr chunks are appended unprocessed; the failure/timeout markers use
the tag `[错误]` and the timeout message uses full-width punctuation. -/
def runStepHost (st0 : TaskState) (cmdName : String) (res : StepResult) :
    TaskState × Option String :=
  let st := append_task_log st0 (headerFor cmdName)
  match res with
  | .exited code out err =>
    let st := if out = "" then st else append_task_log st out
    let st := if err = "" then st else append_task_log st err
    if code ≠ 0 then
      let e := cmdName ++ " 执行失败 (exit code: " ++ intStr code ++ ")"
      let st : TaskState := { st with errorMessage := e, status := "failed" }
      (append_task_log st ("\n[错误] " ++ e ++ "\n"), some e)
    else (st, none)
  | .timedOut =>
    let e := cmdName ++ " 执行超时（超过" ++ intStr (Int.ofNat BUILD_TIMEOUT) ++ "秒）"
    let st : TaskState := { st with errorMessage := e, status := "failed" }
    (append_task_log st ("\n[错误] " ++ e ++ "\n"), some e)

/-- Run the named steps in order with the given per-step function, stopping
at the first failure; also return which step names were executed. -/
def runSteps (stepFn : TaskState → String → StepResult → TaskState × Option String)
    (st : TaskState) : List (String × StepResult) → TaskState × Option String × List String
  | [] => (st, none, [])
  | (name, res) :: rest =>
    match stepFn st name res with
    | (st1, some e) => (st1, some e, [name])
    | (st1, none) =>
      let (st2, r, ex) := runSteps stepFn st1 rest
      (st2, r, name :: ex)

/-- The three ordered pipeline steps with their configured outcomes. -/
def stepsOf (env : BuildEnv) : List (String × StepResult) :=
  [("npm i", env.install), ("npm run build", env.build), ("npm run package", env.package)]

/-- The `*.vsix` glob test: the filename ends with the artifact extension. -/
def isVsixName (name : String) : Bool :=
  List.isSuffixOf ".vsix".data name.data

/-- `find_latest_vsix`: among the `*.vsix` files of the artifacts directory
pick the one with the greatest modification time (first such on a tie, as
Python `max` keeps the first maximal element); `none` when there is none. -/
def find_latest_vsix (dir : List (String × Nat)) : Option String :=
  match dir.filter (fun p => isVsixName p.1) with
  | [] => none
  | x :: xs => some ((xs.foldl (fun acc p => if acc.2 < p.2 then p else acc) x).1)

/-- Result of one pipeline run: final task state, the returned
(success, message) pair, and the list of executed step names. -/
structure PipeResult where
  st : TaskState
  ok : Bool
  msg : String
  executed : List String
  deriving Repr, DecidableEq

/-- Svc variant `execute_npm_commands`: truncate the log file to the
header, run the three steps stopping at the first failure, then look for
the newest artifact; all-zero exits without an artifact are a failure. -/
def execute_npm_commands (t : TaskInfo) (env : BuildEnv) (task : TaskState) : PipeResult :=
  let st0 : TaskState := { task with status := "building", fileContent := initHeader t }
  match runSteps runStepSvc st0 (stepsOf env) with
  | (st, some e, ex) => ⟨st, false, e, ex⟩
  | (st, none, ex) =>
    match find_latest_vsix env.artifacts with
    | some f =>
      let m := "构建成功，产物: " ++ f
      let st : TaskState := { st with resultFile := f, status := "completed" }
      let st := append_task_log st ("\n[成功] " ++ m ++ "\n")
      let st := append_task_log st ("结束时间: " ++ t.endTime ++ "\n")
      ⟨st, true, m, ex⟩
    | none =>
      let m := "构建完成但未找到.vsix文件"
      let st : TaskState := { st with errorMessage := m, status := "failed" }
      let st := append_task_log st ("\n[失败] " ++ m ++ "\n")
      let st := append_task_log st ("结束时间: " ++ t.endTime ++ "\n")
      ⟨st, false, m, ex⟩

/-- Host variant `execute_npm_commands`: identical control flow, host-variant
step handling and `[错误]` markers. -/
def execute_npm_commands_host (t : TaskInfo) (env : BuildEnv) (task : TaskState) : PipeResult :=
  let st0 : TaskState := { task with status := "building", fileContent := initHeader t }
  match runSteps runStepHost st0 (stepsOf env) with
  | (st, some e, ex) => ⟨st, false, e, ex⟩
  | (st, none, ex) =>
    match find_latest_vsix env.artifacts with
    | some f =>
      let m := "构建成功，产物: " ++ f
      let st : TaskState := { st with resultFile := f, status := "completed" }
      let st := append_task_log st ("\n[成功] " ++ m ++ "\n")
      let st := append_task_log st ("结束时间: " ++ t.endTime ++ "\n")
      ⟨st, true, m, ex⟩
    | none =>
      let m := "构建完成但未找到.vsix文件"
      let st : TaskState := { st with errorMessage := m, status := "failed" }
      let st := append_task_log st ("\n[错误] " ++ m ++ "\n")
      let st := append_task_log st ("结束时间: " ++ t.endTime ++ "\n")
      ⟨st, false, m, ex⟩

/-- Append a character to the last segment of a nonempty segmentation
(helper for reasoning about `splitNl` of an extended list). -/
def appendToLast (c : Char) : List (List Char) → List (List Char)
  | [] => [[c]]
  | [l] => [l ++ [c]]
  | l :: l2 :: ls => l :: appendToLast c (l2 :: ls)

/-- A one-line message in clean form: no newline, a first character that is
neither whitespace nor a separator, and a non-whitespace last character.
All messages produced by the pipeline markers have this shape. -/
def msgLine (s : String) : Bool :=
  decide ('\n' ∉ s.data) &&
  (s.data.head?.all fun c => !isPyWs c && !isSep c) &&
  !s.data.isEmpty &&
  (s.data.getLast?.all fun c => !isPyWs c)

/-- The specified rendering of a step's stdout: the stdout split into
lines, each appended followed by a newline (empty stdout contributes
nothing). -/
def stdoutChunk (out : String) : String :=
  if out = "" then ""
  else strConcat ((pyLines out).map fun l => l ++ "\n")

/-- The specified rendering of a step's stderr: each non-blank line
prefixed with the error-stream marker `[stderr] ` and a trailing newline;
blank lines contribute nothing. -/
def stderrChunk (err : String) : String :=
  if err = "" then ""
  else strConcat ((pyLines err).map fun l =>
    if pyStrip l = "" then "" else "[stderr] " ++ l ++ "\n")

/-- Both log sinks of `st2` extend those of `st1` by one common suffix:
the relation every pipeline operation preserves between the in-memory
log and the log file. -/
def ExtendsBoth (st1 st2 : TaskState) : Prop :=
  ∃ d, st2.logs = st1.logs ++ d ∧ st2.fileContent = st1.fileContent ++ d

/-- The error message `execute_npm_commands` reports when the given step
outcome is a failure: non-zero exit or timeout (svc variant wording). -/
def stepFailMsg (name : String) : StepResult → Option String
  | .exited c _ _ =>
    if c ≠ 0 then some (name ++ " 执行失败 (exit code: " ++ intStr c ++ ")") else none
  | .timedOut => some (name ++ " 执行超时 (>" ++ intStr (Int.ofNat BUILD_TIMEOUT) ++ "s)")

/-- The marker tag the svc variant stamps on a failing step in the log. -/
def markerTag : StepResult → String
  | .exited _ _ _ => "[失败] "
  | .timedOut => "[超时] "

/-- A step outcome that counts as success: exit code zero. -/
def StepOk (r : StepResult) : Prop :=
  ∃ o e, r = .exited 0 o e

/-- The failure-marker line the svc variant appends to the log for the given
kind of step failure. -/
def markerLine : StepResult → String → String
  | .exited _ _ _, e => "\n[失败] " ++ e ++ "\n"
  | .timedOut, e => "\n[超时] " ++ e ++ "\n"

/-- The error message the host variant reports when the given step outcome is
a failure (the timeout wording uses full-width punctuation there). -/
def stepFailMsgHost (name : String) : StepResult → Option String
  | .exited c _ _ =>
    if c ≠ 0 then some (name ++ " 执行失败 (exit code: " ++ intStr c ++ ")") else none
  | .timedOut =>
    some (name ++ " 执行超时（超过" ++ intStr (Int.ofNat BUILD_TIMEOUT) ++ "秒）")

/-- The tag the host variant stamps on every failing step in the log. -/
def markerTagHost : String := "[错误] "

/-- The failure-marker line the host variant appends to the log. -/
def markerLineHost (e : String) : String := "\n[错误] " ++ e ++ "\n"

/-! ### Git synchronization (`fetch_branch`) -/

/-- Result of one `fetch_branch` call: the (success, message) pair returned
to the worker, plus the trace of command lines passed to `git_cmd`
(hence to the shell), in issue order. -/
structure FetchResult where
  ok : Bool
  msg : String
  trace : List String
  deriving Repr, DecidableEq

/-- Environment for the host-variant `fetch_branch`: outcome of each git
subprocess (`git_cmd` results) and the sets of local and remote branch
refs that the two exact `show-ref --verify` queries consult. -/
structure GitEnv where
  resetOk : Bool
  fetchOk : Bool
  fetchMsg : String
  localBranches : List String
  remoteBranches : List String
  checkoutOk : Bool
  checkoutMsg : String
  resetOriginOk : Bool
  resetOriginMsg : String
  createOk : Bool
  createMsg : String
  revParseOk : Bool
  shortHash : String
  logOk : Bool
  commitMsgOut : String
  deriving Repr, DecidableEq

/-- Command lines issued by `get_current_commit_info`: `git log` runs only
when `git rev-parse` succeeded. -/
def commitTrace (env : GitEnv) : List String :=
  if env.revParseOk then
    ["git rev-parse --short=7 HEAD", "git log -1 --pretty=%B HEAD"]
  else
    ["git rev-parse --short=7 HEAD"]

/-- Host variant `get_current_commit_info`: short hash and first line of the
commit message, falling back to the sentinel "unknown" on any failure or
an empty message. -/
def get_current_commit_info (env : GitEnv) : String × String :=
  if !env.revParseOk then ("unknown", "unknown")
  else if !env.logOk then (env.shortHash, "unknown")
  else (env.shortHash, if env.commitMsgOut = "" then "unknown" else firstLine env.commitMsgOut)

/-- Host variant `fetch_branch`: reset (result ignored), fetch (fatal),
exact remote-ref existence check, exact local-ref existence check, then
checkout-and-hard-reset or create-from-remote, and finally the commit
info for reporting. -/
def fetch_branch (env : GitEnv) (branch : String) : FetchResult :=
  let t1 := ["git reset --hard", "git fetch origin"]
  if !env.fetchOk then ⟨false, "fetch 失败: " ++ env.fetchMsg, t1⟩
  else
    let t2 := t1 ++ ["git show-ref --verify --quiet refs/remotes/origin/" ++ branch]
    if !(env.remoteBranches.contains branch) then
      ⟨false, "远程分支 \x27origin/" ++ branch ++ "\x27 不存在", t2⟩
    else
      let t3 := t2 ++ ["git show-ref --verify --quiet refs/heads/" ++ branch]
      if env.localBranches.contains branch then
        let t4 := t3 ++ ["git checkout " ++ branch]
        if !env.checkoutOk then ⟨false, "切换失败: " ++ env.checkoutMsg, t4⟩
        else
          let t5 := t4 ++ ["git reset --hard origin/" ++ branch]
          if !env.resetOriginOk then ⟨false, "更新失败: " ++ env.resetOriginMsg, t5⟩
          else
            let info := get_current_commit_info env
            ⟨true, "分支 \x27" ++ branch ++ "\x27 已强制更新到远程最新版本" ++
              " | Latest: " ++ info.1 ++ " - " ++ info.2, t5 ++ commitTrace env⟩
      else
        let t4 := t3 ++ ["git checkout -b " ++ branch ++ " origin/" ++ branch]
        if !env.createOk then ⟨false, "创建分支失败: " ++ env.createMsg, t4⟩
        else
          let info := get_current_commit_info env
          ⟨true, "分支 \x27" ++ branch ++ "\x27 已从远程创建" ++
            " | Latest: " ++ info.1 ++ " - " ++ info.2, t4 ++ commitTrace env⟩

/-- Environment for the svc-variant `fetch_branch`: subprocess outcomes
plus the repository state (current branch, local branches, remote
branches) from which the `git branch -a` listing is produced. -/
structure GitEnvSvc where
  resetOk : Bool
  fetchOk : Bool
  fetchMsg : String
  branchListOk : Bool
  branchListMsg : String
  currentBranch : String
  localBranches : List String
  remoteBranches : List String
  checkoutOk : Bool
  checkoutMsg : String
  resetOriginOk : Bool
  resetOriginMsg : String
  createOk : Bool
  createMsg : String
  deriving Repr, DecidableEq

/-- The text `git branch -a` prints for the given repository state: local
branches indented two spaces (the current one starred), then remote
branches as `remotes/origin/<name>`. -/
def branch_a_listing (current : String) (locals remotes : List String) : String :=
  joinNl
    (locals.map (fun b => if b = current then "* " ++ b else "  " ++ b) ++
     remotes.map (fun b => "  remotes/origin/" ++ b))

/-- Svc variant `fetch_branch`: reset (result ignored), fetch (fatal), then
branch existence decided by naive substring search over the lines of the
`git branch -a` listing, then checkout-and-hard-reset or create. -/
def fetch_branch_svc (env : GitEnvSvc) (branch : String) : FetchResult :=
  let t1 := ["git reset --hard", "git fetch origin"]
  if !env.fetchOk then ⟨false, "fetch 失败: " ++ env.fetchMsg, t1⟩
  else
    let t2 := t1 ++ ["git branch -a"]
    if !env.branchListOk then ⟨false, "检查分支失败: " ++ env.branchListMsg, t2⟩
    else
      let lines := pyLines (branch_a_listing env.currentBranch env.localBranches env.remoteBranches)
      let localExists := lines.any fun line =>
        containsSub line ("  " ++ branch) || containsSub line ("* " ++ branch)
      let remoteExists := lines.any fun line => containsSub line ("origin/" ++ branch)
      if !remoteExists then
        ⟨false, "远程分支 \x27origin/" ++ branch ++ "\x27 不存在", t2⟩
      else if localExists then
        let t3 := t2 ++ ["git checkout " ++ branch]
        if !env.checkoutOk then ⟨false, "切换失败: " ++ env.checkoutMsg, t3⟩
        else
          let t4 := t3 ++ ["git reset --hard origin/" ++ branch]
          if !env.resetOriginOk then ⟨false, "更新失败: " ++ env.resetOriginMsg, t4⟩
          else ⟨true, "分支 \x27" ++ branch ++ "\x27 已强制更新", t4⟩
      else
        let t3 := t2 ++ ["git checkout -b " ++ branch ++ " origin/" ++ branch]
        if !env.createOk then ⟨false, "创建失败: " ++ env.createMsg, t3⟩
        else ⟨true, "分支 \x27" ++ branch ++ "\x27 已创建", t3⟩

/-! ### Submission handlers and the worker loop -/

/-- Host variant `api_submit_build_task`: unconditionally creates a task
carrying the request branch verbatim and reports success; no validation
of the branch string is performed. -/
def api_submit_build_task (branch : String) : Bool × String :=
  (true, branch)

/-- Fields of the worker-visible global state that the claims are about:
the currently-executing task reference and the last processed task's
status. -/
structure WorkerView where
  current : Option String
  taskStatus : String
  deriving Repr, DecidableEq

/-- One iteration of the host-variant `build_worker` loop, after a task was
dequeued: mark it current, run fetch then build; `raises` injects an
unexpected exception after the task was marked current, which the
enclosing `except` block merely logs (it does not touch `current_task`). -/
def build_worker_iter_host (taskId : String) (fetchOk raises : Bool) (w : WorkerView) :
    WorkerView :=
  let w1 : WorkerView := { w with current := some taskId }
  if raises then w1
  else if !fetchOk then { w1 with taskStatus := "failed", current := none }
  else { w1 with taskStatus := "building", current := none }

/-- One iteration of the svc-variant `build_worker` loop for a dequeued
task of the given kind (`fetch_queued` or `build_queued`); its `except`
block resets `current_task` to `None` before the next iteration. -/
def build_worker_iter_svc (taskId kind : String) (fetchOk raises : Bool) (w : WorkerView) :
    WorkerView :=
  let w1 : WorkerView := { w with current := some taskId }
  if raises then { w1 with current := none }
  else if kind = "fetch_queued" then
    if !fetchOk then { w1 with taskStatus := "failed", current := none }
    else { w1 with taskStatus := "fetch_completed", current := none }
  else if kind = "build_queued" then
    if !fetchOk then { w1 with taskStatus := "failed", current := none }
    else { w1 with taskStatus := "building", current := none }
  else { w1 with current := none }

/-! ### Artifact lookup endpoint -/

/-- Successful response body of `api_get_artifact`. -/
structure ArtifactResponse where
  url : String
  filename : String
  message : String
  deriving Repr, DecidableEq

/-- `api_get_artifact`: look up the newest `*.vsix` by modification time
(404, modelled as `none`, when there is none); the `branch` query
parameter is received but never consulted. -/
def api_get_artifact (branch : String) (dir : List (String × Nat)) : Option ArtifactResponse :=
  match find_latest_vsix dir with
  | none => none
  | some f =>
    some { url := "http://\x7bBUILD_SERVER_IP\x7d:1234/artifacts/" ++ f,
           filename := f,
           message := "产物: " ++ f }

/-! ## Lemma toolkit: `splitNl` and `stripChars` -/

theorem splitNl_ne_nil (l : List Char) : splitNl l ≠ [] := by
  induction l with
  | nil => simp [splitNl]
  | cons c cs ih =>
    unfold splitNl
    by_cases h : c = '\n'
    · simp [h]
    · simp only [h, if_false]
      cases hs : splitNl cs with
      | nil => simp
      | cons r rs => simp

theorem splitNl_no_nl (l : List Char) (h : '\n' ∉ l) : splitNl l = [l] := by
  induction l with
  | nil => rfl
  | cons c cs ih =>
    have hc : c ≠ '\n' := by
      intro e
      exact h (e ▸ List.mem_cons_self c cs)
    have hcs : '\n' ∉ cs := fun m => h (List.mem_cons_of_mem c m)
    unfold splitNl
    rw [ih hcs]
    simp [hc]

theorem stripChars_cons_ws {c : Char} (l : List Char) (h : isPyWs c = true) :
    stripChars (c :: l) = stripChars l := by
  simp [stripChars, List.dropWhile_cons, h]

theorem stripChars_append_ws (l : List Char) {c : Char} (h : isPyWs c = true) :
    stripChars (l ++ [c]) = stripChars l := by
  unfold stripChars
  rw [List.dropWhile_append]
  cases hD : l.dropWhile isPyWs with
  | nil => simp [List.dropWhile_cons, h]
  | cons a t => simp [List.dropWhile_cons, h, List.reverse_append]

theorem lineMsg_nil : lineMsg [] = none := rfl

theorem lineMsg_cons_ws {c : Char} (l : List Char) (h : isPyWs c = true) :
    lineMsg (c :: l) = lineMsg l := by
  simp [lineMsg, stripChars_cons_ws l h]

theorem lineMsg_append_ws (l : List Char) {c : Char} (h : isPyWs c = true) :
    lineMsg (l ++ [c]) = lineMsg l := by
  simp [lineMsg, stripChars_append_ws l h]

theorem splitNl_cons (c : Char) (cs : List Char) :
    splitNl (c :: cs) =
      if c = '\n' then [] :: splitNl cs
      else match splitNl cs with
        | [] => [[c]]
        | r :: rs => (c :: r) :: rs := rfl

theorem findSome_eq_head_filterMap {α β : Type} (f : α → Option β) (l : List α) :
    l.findSome? f = (l.filterMap f).head? := by
  induction l with
  | nil => rfl
  | cons a t ih =>
    cases h : f a with
    | none =>
      rw [List.findSome?_cons, List.filterMap_cons, h]
      exact ih
    | some b =>
      rw [List.findSome?_cons, List.filterMap_cons, h]
      rfl

theorem filterMap_splitNl_dropWhile (l : List Char) :
    (splitNl (l.dropWhile isPyWs)).filterMap lineMsg = (splitNl l).filterMap lineMsg := by
  induction l with
  | nil => rfl
  | cons c cs ih =>
    by_cases hw : isPyWs c
    · rw [List.dropWhile_cons_of_pos hw]
      by_cases hn : c = '\n'
      · subst hn
        rw [splitNl_cons]
        rw [if_pos rfl]
        rw [List.filterMap_cons, lineMsg_nil, ih]
      · obtain ⟨r, rs, hrs⟩ := List.exists_cons_of_ne_nil (splitNl_ne_nil cs)
        rw [splitNl_cons]
        simp only [hn, if_false, hrs]
        rw [ih, hrs, List.filterMap_cons, List.filterMap_cons, lineMsg_cons_ws r hw]
    · rw [List.dropWhile_cons_of_neg hw]

theorem splitNl_append_nl (m : List Char) : splitNl (m ++ ['\n']) = splitNl m ++ [[]] := by
  induction m with
  | nil => rfl
  | cons a m ih =>
    by_cases ha : a = '\n'
    · subst ha
      rw [List.cons_append, splitNl_cons, splitNl_cons]
      rw [if_pos rfl]
      rw [ih]
      rfl
    · obtain ⟨r, rs, hrs⟩ := List.exists_cons_of_ne_nil (splitNl_ne_nil m)
      rw [List.cons_append, splitNl_cons, splitNl_cons]
      simp only [ha, if_false]
      rw [ih, hrs]
      rfl

theorem appendToLast_ne_nil (c : Char) (xs : List (List Char)) : appendToLast c xs ≠ [] := by
  cases xs with
  | nil => simp [appendToLast]
  | cons l ls => cases ls <;> simp [appendToLast]

theorem splitNl_append_char (m : List Char) {c : Char} (h : c ≠ '\n') :
    splitNl (m ++ [c]) = appendToLast c (splitNl m) := by
  induction m with
  | nil => simp [splitNl, appendToLast, h]
  | cons a m ih =>
    by_cases ha : a = '\n'
    · subst ha
      obtain ⟨r, rs, hrs⟩ := List.exists_cons_of_ne_nil (splitNl_ne_nil m)
      rw [List.cons_append, splitNl_cons, splitNl_cons]
      rw [if_pos rfl]
      rw [ih, hrs]
      rfl
    · obtain ⟨r, rs, hrs⟩ := List.exists_cons_of_ne_nil (splitNl_ne_nil m)
      rw [List.cons_append, splitNl_cons, splitNl_cons]
      simp only [ha, if_false]
      rw [ih, hrs]
      cases rs with
      | nil => rfl
      | cons r2 rs2 => rfl

theorem filterMap_appendToLast {c : Char} (h : isPyWs c = true) (xs : List (List Char)) :
    (appendToLast c xs).filterMap lineMsg = xs.filterMap lineMsg := by
  induction xs with
  | nil =>
    show ([[c]] : List (List Char)).filterMap lineMsg = _
    have : lineMsg [c] = none := by
      have : lineMsg ([] ++ [c]) = lineMsg [] := lineMsg_append_ws [] h
      simpa using this
    simp [List.filterMap_cons, this]
  | cons l ls ih =>
    cases ls with
    | nil =>
      show ([l ++ [c]] : List (List Char)).filterMap lineMsg = _
      rw [List.filterMap_cons, List.filterMap_cons, lineMsg_append_ws l h]
    | cons l2 ls2 =>
      show (l :: appendToLast c (l2 :: ls2)).filterMap lineMsg = _
      rw [List.filterMap_cons, List.filterMap_cons, ih]

theorem filterMap_splitNl_append_ws (m : List Char) {c : Char} (h : isPyWs c = true) :
    (splitNl (m ++ [c])).filterMap lineMsg = (splitNl m).filterMap lineMsg := by
  by_cases hn : c = '\n'
  · subst hn
    rw [splitNl_append_nl]
    simp [List.filterMap_append, lineMsg_nil]
  · rw [splitNl_append_char m hn, filterMap_appendToLast h]

theorem filterMap_splitNl_append_wsList (t : List Char) (ht : ∀ c ∈ t, isPyWs c = true) :
    ∀ m, (splitNl (m ++ t)).filterMap lineMsg = (splitNl m).filterMap lineMsg := by
  induction t with
  | nil => simp
  | cons c t ih =>
    intro m
    have hsplit : m ++ c :: t = (m ++ [c]) ++ t := by simp
    rw [hsplit, ih (fun x hx => ht x (List.mem_cons_of_mem c hx)) (m ++ [c]),
        filterMap_splitNl_append_ws m (ht c (List.mem_cons_self c t))]

theorem filterMap_splitNl_stripTrail (m : List Char) :
    (splitNl ((m.reverse.dropWhile isPyWs).reverse)).filterMap lineMsg
      = (splitNl m).filterMap lineMsg := by
  have hm : m = (m.reverse.dropWhile isPyWs).reverse ++ (m.reverse.takeWhile isPyWs).reverse := by
    rw [← List.reverse_append, List.takeWhile_append_dropWhile, List.reverse_reverse]
  conv_rhs => rw [hm]
  exact (filterMap_splitNl_append_wsList _
    (fun c hc => List.mem_takeWhile_imp (List.mem_reverse.mp hc)) _).symm

theorem filterMap_splitNl_stripChars (l : List Char) :
    (splitNl (stripChars l)).filterMap lineMsg = (splitNl l).filterMap lineMsg := by
  unfold stripChars
  rw [filterMap_splitNl_stripTrail (l.dropWhile isPyWs), filterMap_splitNl_dropWhile]

theorem lastMsgOf_eq_lastMsgSpec (l : List Char) : lastMsgOf l = lastMsgSpec l := by
  unfold lastMsgOf lastMsgSpec
  rw [findSome_eq_head_filterMap, findSome_eq_head_filterMap,
      List.filterMap_reverse, List.filterMap_reverse,
      List.head?_reverse, List.head?_reverse, filterMap_splitNl_stripChars]

/-! ## Lemma toolkit: clean one-line messages -/

theorem stripChars_eq_self (l : List Char)
    (h1 : (l.head?.all fun c => !isPyWs c) = true)
    (h2 : (l.getLast?.all fun c => !isPyWs c) = true) :
    stripChars l = l := by
  cases l with
  | nil => rfl
  | cons a t =>
    have ha : ¬ isPyWs a = true := by
      simp [Option.all, List.head?] at h1
      simp [h1]
    unfold stripChars
    rw [List.dropWhile_cons_of_neg ha]
    cases hr : (a :: t).reverse with
    | nil => simp at hr
    | cons d r =>
      have hd : (a :: t).getLast? = some d := by
        rw [← List.head?_reverse, hr]
        rfl
      have hdw : ¬ isPyWs d = true := by
        rw [hd] at h2
        simp [Option.all] at h2
        simp [h2]
      have hstep : List.dropWhile isPyWs (d :: r) = d :: r :=
        List.dropWhile_cons_of_neg hdw
      rw [hstep, ← hr, List.reverse_reverse]

theorem decDigit_not_nl (d : Nat) : decDigit d ≠ '\n' := by
  unfold decDigit
  split_ifs <;> decide

theorem natDigitsAux_not_nl (fuel : Nat) : ∀ n, '\n' ∉ natDigitsAux fuel n := by
  induction fuel with
  | zero => intro n; simp [natDigitsAux]
  | succ fuel ih =>
    intro n
    rw [natDigitsAux]
    split
    · simp only [List.mem_singleton]
      exact fun e => decDigit_not_nl n e.symm
    · simp only [List.mem_append, List.mem_singleton]
      rintro (hA | hB)
      · exact ih (n / 10) hA
      · exact decDigit_not_nl (n % 10) hB.symm

theorem natDigits_not_nl (n : Nat) : '\n' ∉ natDigits n :=
  natDigitsAux_not_nl (n + 1) n

theorem intStr_not_nl (i : Int) : '\n' ∉ (intStr i).data := by
  cases i with
  | ofNat n => exact natDigits_not_nl n
  | negSucc n =>
    show '\n' ∉ ("-" ++ (⟨natDigits (n + 1)⟩ : String)).data
    rw [String.data_append]
    simp only [List.mem_append]
    rintro (hA | hB)
    · simp at hA
    · exact natDigits_not_nl (n + 1) hB

theorem msgLine_elim {m : String} (hm : msgLine m = true) :
    '\n' ∉ m.data ∧
    (m.data.head?.all fun c => !isPyWs c && !isSep c) = true ∧
    m.data ≠ [] ∧
    (m.data.getLast?.all fun c => !isPyWs c) = true := by
  unfold msgLine at hm
  simp only [Bool.and_eq_true, decide_eq_true_eq] at hm
  refine ⟨hm.1.1.1, hm.1.1.2, ?_, hm.2⟩
  have h := hm.1.2
  simp only [Bool.not_eq_true] at h
  intro he
  rw [he] at h
  simp at h

theorem lineMsg_of_msgLine {m : String} (hm : msgLine m = true) :
    lineMsg m.data = some m.data := by
  obtain ⟨hnl, hh, hne, hl⟩ := msgLine_elim hm
  have hs : stripChars m.data = m.data := by
    apply stripChars_eq_self _ _ hl
    cases hd : m.data with
    | nil => rfl
    | cons a t =>
      rw [hd] at hh
      simp only [List.head?, Option.all, Bool.and_eq_true] at hh ⊢
      exact hh.1
  unfold lineMsg
  rw [hs]
  cases hd : m.data with
  | nil => exact absurd hd hne
  | cons a t =>
    rw [hd] at hh
    simp only [List.head?, Option.all, Bool.and_eq_true, Bool.not_eq_true] at hh
    simp [List.all_cons, hh.2]

theorem lastMsgSpec_wrap (m : String) (hm : msgLine m = true) :
    lastMsgSpec ('\n' :: (m.data ++ ['\n'])) = some m.data := by
  obtain ⟨hnl, hh, hne, hl⟩ := msgLine_elim hm
  unfold lastMsgSpec
  rw [splitNl_cons]
  rw [if_pos rfl]
  rw [splitNl_append_nl, splitNl_no_nl m.data hnl]
  simp [List.findSome?_cons, lineMsg_nil, lineMsg_of_msgLine hm]

/-! ## Lemma toolkit: `append_task_log` algebra -/

theorem append_task_log_logs (st : TaskState) (c : String) :
    (append_task_log st c).logs = st.logs ++ c := by
  unfold append_task_log
  cases lastMsgOf c.data <;> rfl

theorem append_task_log_fileContent (st : TaskState) (c : String) :
    (append_task_log st c).fileContent = st.fileContent ++ c := by
  unfold append_task_log
  cases lastMsgOf c.data <;> rfl

theorem append_task_log_status (st : TaskState) (c : String) :
    (append_task_log st c).status = st.status := by
  unfold append_task_log
  cases lastMsgOf c.data <;> rfl

theorem append_task_log_resultFile (st : TaskState) (c : String) :
    (append_task_log st c).resultFile = st.resultFile := by
  unfold append_task_log
  cases lastMsgOf c.data <;> rfl

theorem append_task_log_errorMessage (st : TaskState) (c : String) :
    (append_task_log st c).errorMessage =
      match lastMsgSpec c.data with
      | some m => (⟨m⟩ : String)
      | none => st.errorMessage := by
  unfold append_task_log
  rw [lastMsgOf_eq_lastMsgSpec]
  cases lastMsgSpec c.data <;> rfl

theorem append_task_log_wrap (st : TaskState) (c m : String)
    (hc : c.data = '\n' :: (m.data ++ ['\n'])) (hm : msgLine m = true) :
    append_task_log st c =
      { st with logs := st.logs ++ c, fileContent := st.fileContent ++ c,
                errorMessage := m } := by
  unfold append_task_log
  rw [lastMsgOf_eq_lastMsgSpec, hc, lastMsgSpec_wrap m hm]

/-! ## Lemma toolkit: pipeline log accumulation -/

theorem strConcat_cons (s : String) (rest : List String) :
    strConcat (s :: rest) = s ++ strConcat rest := rfl

theorem extendsBoth_refl (st : TaskState) : ExtendsBoth st st :=
  ⟨"", (String.append_empty _).symm, (String.append_empty _).symm⟩

theorem extendsBoth_trans {s1 s2 s3 : TaskState}
    (h12 : ExtendsBoth s1 s2) (h23 : ExtendsBoth s2 s3) : ExtendsBoth s1 s3 := by
  obtain ⟨d1, hl1, hf1⟩ := h12
  obtain ⟨d2, hl2, hf2⟩ := h23
  exact ⟨d1 ++ d2, by rw [hl2, hl1, String.append_assoc],
         by rw [hf2, hf1, String.append_assoc]⟩

theorem extendsBoth_append (st : TaskState) (c : String) :
    ExtendsBoth st (append_task_log st c) :=
  ⟨c, (append_task_log_logs st c).symm ▸ rfl, (append_task_log_fileContent st c).symm ▸ rfl⟩

theorem extendsBoth_setError (st : TaskState) (e s : String) :
    ExtendsBoth st { st with errorMessage := e, status := s } :=
  ⟨"", (String.append_empty _).symm, (String.append_empty _).symm⟩

theorem foldl_append_nl_logs (lines : List String) :
    ∀ st : TaskState,
      ((lines.foldl (fun s l => append_task_log s (l ++ "\n")) st).logs
        = st.logs ++ strConcat (lines.map fun l => l ++ "\n")) ∧
      ((lines.foldl (fun s l => append_task_log s (l ++ "\n")) st).fileContent
        = st.fileContent ++ strConcat (lines.map fun l => l ++ "\n")) := by
  induction lines with
  | nil => intro st; simp [strConcat, String.append_empty]
  | cons a rest ih =>
    intro st
    rw [List.foldl_cons, List.map_cons, strConcat_cons]
    obtain ⟨hl, hf⟩ := ih (append_task_log st (a ++ "\n"))
    constructor
    · rw [hl, append_task_log_logs, String.append_assoc]
    · rw [hf, append_task_log_fileContent, String.append_assoc]

theorem foldl_stderr_logs (lines : List String) :
    ∀ st : TaskState,
      ((lines.foldl
          (fun s l => if pyStrip l = "" then s else append_task_log s ("[stderr] " ++ l ++ "\n"))
          st).logs
        = st.logs ++ strConcat (lines.map fun l =>
            if pyStrip l = "" then "" else "[stderr] " ++ l ++ "\n")) ∧
      ((lines.foldl
          (fun s l => if pyStrip l = "" then s else append_task_log s ("[stderr] " ++ l ++ "\n"))
          st).fileContent
        = st.fileContent ++ strConcat (lines.map fun l =>
            if pyStrip l = "" then "" else "[stderr] " ++ l ++ "\n")) := by
  induction lines with
  | nil => intro st; simp [strConcat, String.append_empty]
  | cons a rest ih =>
    intro st
    rw [List.foldl_cons, List.map_cons, strConcat_cons]
    by_cases ha : pyStrip a = ""
    · rw [if_pos ha, if_pos ha]
      obtain ⟨hl, hf⟩ := ih st
      constructor
      · rw [hl, String.empty_append]
      · rw [hf, String.empty_append]
    · rw [if_neg ha, if_neg ha]
      obtain ⟨hl, hf⟩ := ih (append_task_log st ("[stderr] " ++ a ++ "\n"))
      constructor
      · rw [hl, append_task_log_logs, String.append_assoc]
      · rw [hf, append_task_log_fileContent, String.append_assoc]

theorem appendStdoutSvc_logs (st : TaskState) (out : String) :
    (appendStdoutSvc st out).logs = st.logs ++ stdoutChunk out ∧
    (appendStdoutSvc st out).fileContent = st.fileContent ++ stdoutChunk out := by
  unfold appendStdoutSvc stdoutChunk
  by_cases h : out = ""
  · rw [if_pos h, if_pos h]
    exact ⟨(String.append_empty _).symm, (String.append_empty _).symm⟩
  · rw [if_neg h, if_neg h]
    exact foldl_append_nl_logs (pyLines out) st

theorem appendStderrSvc_logs (st : TaskState) (err : String) :
    (appendStderrSvc st err).logs = st.logs ++ stderrChunk err ∧
    (appendStderrSvc st err).fileContent = st.fileContent ++ stderrChunk err := by
  unfold appendStderrSvc stderrChunk
  by_cases h : err = ""
  · rw [if_pos h, if_pos h]
    exact ⟨(String.append_empty _).symm, (String.append_empty _).symm⟩
  · rw [if_neg h, if_neg h]
    exact foldl_stderr_logs (pyLines err) st

theorem extendsBoth_appendStdoutSvc (st : TaskState) (out : String) :
    ExtendsBoth st (appendStdoutSvc st out) :=
  ⟨stdoutChunk out, (appendStdoutSvc_logs st out).1, (appendStdoutSvc_logs st out).2⟩

theorem extendsBoth_appendStderrSvc (st : TaskState) (err : String) :
    ExtendsBoth st (appendStderrSvc st err) :=
  ⟨stderrChunk err, (appendStderrSvc_logs st err).1, (appendStderrSvc_logs st err).2⟩

theorem extendsBoth_runStepSvc (st : TaskState) (name : String) (res : StepResult) :
    ExtendsBoth st (runStepSvc st name res).1 := by
  cases res with
  | exited code out err =>
    dsimp only [runStepSvc]
    by_cases hc : code ≠ 0
    · rw [if_pos hc]
      refine extendsBoth_trans (extendsBoth_append st (headerFor name)) ?_
      refine extendsBoth_trans (extendsBoth_appendStdoutSvc _ out) ?_
      refine extendsBoth_trans (extendsBoth_appendStderrSvc _ err) ?_
      exact extendsBoth_trans (extendsBoth_setError _ _ _) (extendsBoth_append _ _)
    · rw [if_neg hc]
      refine extendsBoth_trans (extendsBoth_append st (headerFor name)) ?_
      exact extendsBoth_trans (extendsBoth_appendStdoutSvc _ out)
        (extendsBoth_appendStderrSvc _ err)
  | timedOut =>
    dsimp only [runStepSvc]
    refine extendsBoth_trans (extendsBoth_append st (headerFor name)) ?_
    exact extendsBoth_trans (extendsBoth_setError _ _ _) (extendsBoth_append _ _)

theorem extendsBoth_runStepHost (st : TaskState) (name : String) (res : StepResult) :
    ExtendsBoth st (runStepHost st name res).1 := by
  cases res with
  | exited code out err =>
    have hmid : ∀ s : TaskState, ExtendsBoth s
        (if err = "" then (if out = "" then s else append_task_log s out)
         else append_task_log (if out = "" then s else append_task_log s out) err) := by
      intro s
      by_cases ho : out = "" <;> by_cases he : err = "" <;>
        simp only [ho, he, if_true, if_false, ite_true, ite_false] <;>
        first
          | exact extendsBoth_refl _
          | exact extendsBoth_append _ _
          | exact extendsBoth_trans (extendsBoth_append _ _) (extendsBoth_append _ _)
    dsimp only [runStepHost]
    by_cases hc : code ≠ 0
    · rw [if_pos hc]
      refine extendsBoth_trans (extendsBoth_append st (headerFor name)) ?_
      refine extendsBoth_trans (hmid _) ?_
      exact extendsBoth_trans (extendsBoth_setError _ _ _) (extendsBoth_append _ _)
    · rw [if_neg hc]
      exact extendsBoth_trans (extendsBoth_append st (headerFor name)) (hmid _)
  | timedOut =>
    dsimp only [runStepHost]
    refine extendsBoth_trans (extendsBoth_append st (headerFor name)) ?_
    exact extendsBoth_trans (extendsBoth_setError _ _ _) (extendsBoth_append _ _)

theorem extendsBoth_runSteps
    (stepFn : TaskState → String → StepResult → TaskState × Option String)
    (hstep : ∀ st name res, ExtendsBoth st (stepFn st name res).1)
    (steps : List (String × StepResult)) :
    ∀ st, ExtendsBoth st (runSteps stepFn st steps).1 := by
  induction steps with
  | nil => intro st; exact extendsBoth_refl st
  | cons p rest ih =>
    intro st
    obtain ⟨name, res⟩ := p
    show ExtendsBoth st (runSteps stepFn st ((name, res) :: rest)).1
    unfold runSteps
    cases hs : stepFn st name res with
    | mk st1 fail =>
      cases fail with
      | some e =>
        have := hstep st name res
        rw [hs] at this
        exact this
      | none =>
        have h1 := hstep st name res
        rw [hs] at h1
        exact extendsBoth_trans h1 (ih st1)

/-! ## Lemma toolkit: message shapes -/

theorem no_nl_append {s t : String} (hs : '\n' ∉ s.data) (ht : '\n' ∉ t.data) :
    '\n' ∉ (s ++ t).data := by
  rw [String.data_append]
  simp only [List.mem_append]
  rintro (h | h)
  · exact hs h
  · exact ht h

theorem msgLine_of_shape (m : String) (a : Char) (mid : List Char) (z : Char)
    (hdata : m.data = a :: (mid ++ [z]))
    (ha1 : isPyWs a = false) (ha2 : isSep a = false) (hz : isPyWs z = false)
    (hnl : '\n' ∉ m.data) :
    msgLine m = true := by
  unfold msgLine
  rw [hdata] at hnl ⊢
  have h1 : decide ('\n' ∉ a :: (mid ++ [z])) = true := decide_eq_true hnl
  have h3 : (a :: (mid ++ [z])).getLast? = some z := by
    rw [show a :: (mid ++ [z]) = (a :: mid) ++ [z] from rfl, List.getLast?_concat]
  rw [h1, h3]
  simp [Option.all, List.head?, ha1, ha2, hz]

theorem msgLine_bracket_paren (A Q : String) (tl : List Char)
    (hA : A.data = '[' :: tl) (hAnl : '\n' ∉ A.data) (hQnl : '\n' ∉ Q.data) :
    msgLine (A ++ (Q ++ ")")) = true := by
  have hz : ((")" : String)).data = [')'] := by decide
  apply msgLine_of_shape _ '[' (tl ++ Q.data) ')'
  · rw [String.data_append, String.data_append, hA, hz]
    simp [List.append_assoc]
  · decide
  · decide
  · decide
  · rw [String.data_append, String.data_append, hA, hz]
    intro hmem
    rw [List.mem_append] at hmem
    rcases hmem with h | h
    · rw [hA] at hAnl
      exact hAnl h
    · rw [List.mem_append] at h
      rcases h with h | h
      · exact hQnl h
      · simp at h

theorem marker_data_fail (e : String) :
    (("\n[失败] " ++ e ++ "\n") : String).data
      = '\n' :: ((("[失败] " ++ e) : String).data ++ ['\n']) := by
  have h1 : ("\n[失败] " : String).data = '\n' :: ("[失败] " : String).data := by decide
  have h2 : ("\n" : String).data = ['\n'] := by decide
  simp [String.data_append, h1, h2]

theorem marker_data_timeout (e : String) :
    (("\n[超时] " ++ e ++ "\n") : String).data
      = '\n' :: ((("[超时] " ++ e) : String).data ++ ['\n']) := by
  have h1 : ("\n[超时] " : String).data = '\n' :: ("[超时] " : String).data := by decide
  have h2 : ("\n" : String).data = ['\n'] := by decide
  simp [String.data_append, h1, h2]

/-! ## Lemma toolkit: step and pipeline equations -/

theorem runStepSvc_ok (st : TaskState) (name out err : String) :
    runStepSvc st name (.exited 0 out err)
      = (appendStderrSvc (appendStdoutSvc (append_task_log st (headerFor name)) out) err,
         none) := by
  dsimp only [runStepSvc]
  rw [if_neg (by simp)]

theorem runStepSvc_fail_fields (st : TaskState) (name : String) (res : StepResult) (e : String)
    (hf : stepFailMsg name res = some e)
    (hm : msgLine (markerTag res ++ e) = true) :
    (runStepSvc st name res).2 = some e ∧
    (runStepSvc st name res).1.status = "failed" ∧
    (runStepSvc st name res).1.errorMessage = markerTag res ++ e ∧
    (∃ p, (runStepSvc st name res).1.logs = p ++ markerLine res e) := by
  cases res with
  | exited code out err =>
    dsimp only [stepFailMsg] at hf
    by_cases hc : code ≠ 0
    · rw [if_pos hc] at hf
      injection hf with he
      subst he
      dsimp only [markerTag, markerLine] at hm ⊢
      dsimp only [runStepSvc]
      rw [if_pos hc]
      rw [append_task_log_wrap _ _ _ (marker_data_fail _) hm]
      exact ⟨rfl, rfl, rfl, _, rfl⟩
    · rw [if_neg hc] at hf
      simp at hf
  | timedOut =>
    dsimp only [stepFailMsg] at hf
    injection hf with he
    subst he
    dsimp only [markerTag, markerLine] at hm ⊢
    dsimp only [runStepSvc]
    rw [append_task_log_wrap _ _ _ (marker_data_timeout _) hm]
    exact ⟨rfl, rfl, rfl, _, rfl⟩

theorem runSteps_cons_fail
    (stepFn : TaskState → String → StepResult → TaskState × Option String)
    (st : TaskState) (name : String) (res : StepResult)
    (rest : List (String × StepResult)) (e : String)
    (h : (stepFn st name res).2 = some e) :
    runSteps stepFn st ((name, res) :: rest)
      = ((stepFn st name res).1, some e, [name]) := by
  have hpair : stepFn st name res = ((stepFn st name res).1, some e) := by
    rw [← h]
  unfold runSteps
  rw [hpair]

theorem runSteps_cons_ok
    (stepFn : TaskState → String → StepResult → TaskState × Option String)
    (st : TaskState) (name : String) (res : StepResult)
    (rest : List (String × StepResult)) (st1 : TaskState)
    (h : stepFn st name res = (st1, none)) :
    runSteps stepFn st ((name, res) :: rest)
      = ((runSteps stepFn st1 rest).1, (runSteps stepFn st1 rest).2.1,
         name :: (runSteps stepFn st1 rest).2.2) := by
  conv_lhs => rw [runSteps]
  rw [h]

theorem execute_of_runSteps_fail (t : TaskInfo) (env : BuildEnv) (task : TaskState)
    (st : TaskState) (e : String) (ex : List String)
    (h : runSteps runStepSvc
          { task with status := "building", fileContent := initHeader t } (stepsOf env)
        = (st, some e, ex)) :
    execute_npm_commands t env task = ⟨st, false, e, ex⟩ := by
  dsimp only [execute_npm_commands]
  rw [h]

/-! ## Lemma toolkit: newest-artifact selection -/

theorem foldl_max_mem (xs : List (String × Nat)) :
    ∀ x : String × Nat,
      (xs.foldl (fun acc p => if acc.2 < p.2 then p else acc) x) ∈ x :: xs := by
  induction xs with
  | nil => intro x; simp
  | cons a rest ih =>
    intro x
    rw [List.foldl_cons]
    have hmem := ih (if x.2 < a.2 then a else x)
    rcases List.mem_cons.mp hmem with h | h
    · rw [h]
      by_cases hx : x.2 < a.2
      · rw [if_pos hx]
        exact List.mem_cons_of_mem _ (List.mem_cons_self _ _)
      · rw [if_neg hx]
        exact List.mem_cons_self _ _
    · exact List.mem_cons_of_mem _ (List.mem_cons_of_mem _ h)

theorem foldl_max_ge (xs : List (String × Nat)) :
    ∀ (x : String × Nat) (p : String × Nat), p ∈ x :: xs →
      p.2 ≤ (xs.foldl (fun acc q => if acc.2 < q.2 then q else acc) x).2 := by
  induction xs with
  | nil =>
    intro x p hp
    rcases List.mem_cons.mp hp with h | h
    · rw [h, List.foldl_nil]
    · simp at h
  | cons a rest ih =>
    intro x p hp
    rw [List.foldl_cons]
    have hbase : x.2 ≤ (if x.2 < a.2 then a else x).2 ∧ a.2 ≤ (if x.2 < a.2 then a else x).2 := by
      by_cases hx : x.2 < a.2
      · rw [if_pos hx]
        omega
      · rw [if_neg hx]
        omega
    rcases List.mem_cons.mp hp with h | h
    · rw [h]
      exact le_trans hbase.1 (ih _ _ (List.mem_cons_self _ _))
    · rcases List.mem_cons.mp h with h2 | h2
      · rw [h2]
        exact le_trans hbase.2 (ih _ _ (List.mem_cons_self _ _))
      · exact ih _ p (List.mem_cons_of_mem _ h2)

theorem find_latest_vsix_spec (dir : List (String × Nat)) (f : String)
    (h : find_latest_vsix dir = some f) :
    isVsixName f = true ∧
    ∃ mt, (f, mt) ∈ dir ∧ ∀ p ∈ dir, isVsixName p.1 = true → p.2 ≤ mt := by
  unfold find_latest_vsix at h
  cases hfil : dir.filter (fun p => isVsixName p.1) with
  | nil =>
    rw [hfil] at h
    simp at h
  | cons x xs =>
    rw [hfil] at h
    injection h with h
    have hmem : (xs.foldl (fun acc p => if acc.2 < p.2 then p else acc) x) ∈ x :: xs :=
      foldl_max_mem xs x
    rw [← hfil] at hmem
    have hmem2 := List.mem_filter.mp hmem
    refine ⟨?_, (xs.foldl (fun acc p => if acc.2 < p.2 then p else acc) x).2, ?_, ?_⟩
    · rw [← h]
      exact hmem2.2
    · rw [← h]
      exact hmem2.1
    · intro p hp hpe
      have hpin : p ∈ x :: xs := by
        rw [← hfil]
        exact List.mem_filter.mpr ⟨hp, hpe⟩
      exact foldl_max_ge xs x p hpin

/-! ## Claim theorems -/

theorem extendsBoth_setResult (st : TaskState) (f s : String) :
    ExtendsBoth st { st with resultFile := f, status := s } :=
  ⟨"", (String.append_empty _).symm, (String.append_empty _).symm⟩

theorem extendsBoth_execute (t : TaskInfo) (env : BuildEnv) (task : TaskState) :
    ExtendsBoth { task with status := "building", fileContent := initHeader t }
      (execute_npm_commands t env task).st := by
  dsimp only [execute_npm_commands]
  have hrs := extendsBoth_runSteps runStepSvc extendsBoth_runStepSvc (stepsOf env)
      { task with status := "building", fileContent := initHeader t }
  cases hr : runSteps runStepSvc
      { task with status := "building", fileContent := initHeader t } (stepsOf env) with
  | mk st rr =>
    rw [hr] at hrs
    cases rr with
    | mk fail ex =>
      cases fail with
      | some e => exact hrs
      | none =>
        cases find_latest_vsix env.artifacts with
        | some f =>
          dsimp only
          refine extendsBoth_trans hrs ?_
          refine extendsBoth_trans (extendsBoth_setResult _ f "completed") ?_
          exact extendsBoth_trans (extendsBoth_append _ _) (extendsBoth_append _ _)
        | none =>
          dsimp only
          refine extendsBoth_trans hrs ?_
          refine extendsBoth_trans (extendsBoth_setError _ "构建完成但未找到.vsix文件" "failed") ?_
          exact extendsBoth_trans (extendsBoth_append _ _) (extendsBoth_append _ _)

theorem extendsBoth_execute_host (t : TaskInfo) (env : BuildEnv) (task : TaskState) :
    ExtendsBoth { task with status := "building", fileContent := initHeader t }
      (execute_npm_commands_host t env task).st := by
  dsimp only [execute_npm_commands_host]
  have hrs := extendsBoth_runSteps runStepHost extendsBoth_runStepHost (stepsOf env)
      { task with status := "building", fileContent := initHeader t }
  cases hr : runSteps runStepHost
      { task with status := "building", fileContent := initHeader t } (stepsOf env) with
  | mk st rr =>
    rw [hr] at hrs
    cases rr with
    | mk fail ex =>
      cases fail with
      | some e => exact hrs
      | none =>
        cases find_latest_vsix env.artifacts with
        | some f =>
          dsimp only
          refine extendsBoth_trans hrs ?_
          refine extendsBoth_trans (extendsBoth_setResult _ f "completed") ?_
          exact extendsBoth_trans (extendsBoth_append _ _) (extendsBoth_append _ _)
        | none =>
          dsimp only
          refine extendsBoth_trans hrs ?_
          refine extendsBoth_trans (extendsBoth_setError _ "构建完成但未找到.vsix文件" "failed") ?_
          exact extendsBoth_trans (extendsBoth_append _ _) (extendsBoth_append _ _)

/-- Claim C5 (amended): in both variants, for every finished run of the
pipeline on a fresh task, the log file on disk equals the header block
(task id, branch, start time, banner) followed by the in-memory accumulated
log — not the in-memory log alone, since the header is written only to the
file. -/
theorem c5_log_file_is_header_plus_memory (t : TaskInfo) (env : BuildEnv) :
    ((execute_npm_commands t env initialTaskState).st.fileContent
      = initHeader t ++ (execute_npm_commands t env initialTaskState).st.logs) ∧
    ((execute_npm_commands_host t env initialTaskState).st.fileContent
      = initHeader t ++ (execute_npm_commands_host t env initialTaskState).st.logs) := by
  constructor
  · obtain ⟨d, hl, hf⟩ := extendsBoth_execute t env initialTaskState
    rw [hf, hl]
    show initHeader t ++ d = initHeader t ++ ("" ++ d)
    rw [String.empty_append]
  · obtain ⟨d, hl, hf⟩ := extendsBoth_execute_host t env initialTaskState
    rw [hf, hl]
    show initHeader t ++ d = initHeader t ++ ("" ++ d)
    rw [String.empty_append]

/-- Counterexample for C5 as stated: a concrete finished (failed) task whose
log-file content differs from its in-memory log byte-for-byte. -/
theorem c5_roundtrip_counterexample :
    (execute_npm_commands ⟨"t1", "main", "S", "E"⟩
        ⟨.exited 1 "" "", .exited 0 "" "", .exited 0 "" "", []⟩ initialTaskState).st.status
      = "failed" ∧
    (execute_npm_commands ⟨"t1", "main", "S", "E"⟩
        ⟨.exited 1 "" "", .exited 0 "" "", .exited 0 "" "", []⟩ initialTaskState).st.fileContent
      ≠ (execute_npm_commands ⟨"t1", "main", "S", "E"⟩
        ⟨.exited 1 "" "", .exited 0 "" "", .exited 0 "" "", []⟩ initialTaskState).st.logs := by
  constructor
  · decide
  · decide

/-- Claim C3 (code bug, evaluation): with all three steps exiting zero and an
empty artifacts directory, the task ends failed, is not completed, keeps an
empty result-artifact field, and the pipeline returns the no-artifact error
message — but the task's error-message field is finally overwritten by the
end-time log line, not the no-artifact message. -/
theorem c3_no_artifact_evaluation :
    (execute_npm_commands ⟨"t1", "main", "S", "E"⟩
        ⟨.exited 0 "" "", .exited 0 "" "", .exited 0 "" "", []⟩ initialTaskState).ok = false ∧
    (execute_npm_commands ⟨"t1", "main", "S", "E"⟩
        ⟨.exited 0 "" "", .exited 0 "" "", .exited 0 "" "", []⟩ initialTaskState).msg
      = "构建完成但未找到.vsix文件" ∧
    (execute_npm_commands ⟨"t1", "main", "S", "E"⟩
        ⟨.exited 0 "" "", .exited 0 "" "", .exited 0 "" "", []⟩ initialTaskState).st.status
      = "failed" ∧
    (execute_npm_commands ⟨"t1", "main", "S", "E"⟩
        ⟨.exited 0 "" "", .exited 0 "" "", .exited 0 "" "", []⟩ initialTaskState).st.resultFile
      = "" ∧
    (execute_npm_commands ⟨"t1", "main", "S", "E"⟩
        ⟨.exited 0 "" "", .exited 0 "" "", .exited 0 "" "", []⟩ initialTaskState).st.errorMessage
      = "结束时间: E" ∧
    (execute_npm_commands ⟨"t1", "main", "S", "E"⟩
        ⟨.exited 0 "" "", .exited 0 "" "", .exited 0 "" "", []⟩ initialTaskState).st.errorMessage
      ≠ "构建完成但未找到.vsix文件" := by
  refine ⟨by decide, by decide, by decide, by decide, by decide, by decide⟩

/-- Claim C8: after every append, the task's last-message field equals the
last line of the just-appended chunk that is non-blank after stripping and
is not composed solely of the separator characters `=-*` (taken stripped);
when the chunk has no such line the field is left unchanged. -/
theorem c8_last_message_recompute (st : TaskState) (content : String) :
    (∀ m, lastMsgSpec content.data = some m →
        (append_task_log st content).errorMessage = (⟨m⟩ : String)) ∧
    (lastMsgSpec content.data = none →
        (append_task_log st content).errorMessage = st.errorMessage) := by
  constructor
  · intro m hm
    rw [append_task_log_errorMessage, hm]
  · intro hm
    rw [append_task_log_errorMessage, hm]

/-- Witness for C8: a chunk whose last lines are a banner and a blank keeps
the preceding significant line; a pure-banner chunk leaves the field alone. -/
theorem c8_last_message_recompute_witness :
    ((append_task_log initialTaskState "done ok\n====\n").errorMessage = "done ok") ∧
    ((append_task_log { initialTaskState with errorMessage := "keep" } "====\n").errorMessage
      = "keep") :=
  ⟨(c8_last_message_recompute initialTaskState "done ok\n====\n").1 ("done ok".data) (by decide),
   (c8_last_message_recompute { initialTaskState with errorMessage := "keep" } "====\n").2
     (by decide)⟩

/-- Claim C7 (amended): every iteration of the svc-variant worker loop resets
the currently-executing reference to null before the next task is dequeued,
on the success, failure and caught-exception paths alike; in the host
variant the caught-exception path does not reset it. -/
theorem c7_svc_worker_clears_current
    (taskId kind : String) (fetchOk raises : Bool) (w : WorkerView) :
    (build_worker_iter_svc taskId kind fetchOk raises w).current = none := by
  dsimp only [build_worker_iter_svc]
  by_cases hr : raises
  · rw [if_pos hr]
  · rw [if_neg hr]
    by_cases hk : kind = "fetch_queued"
    · rw [if_pos hk]
      by_cases hf : fetchOk
      · rw [if_neg (by simp [hf])]
      · rw [if_pos (by simp [hf])]
    · rw [if_neg hk]
      by_cases hk2 : kind = "build_queued"
      · rw [if_pos hk2]
        by_cases hf : fetchOk
        · rw [if_neg (by simp [hf])]
        · rw [if_pos (by simp [hf])]
      · rw [if_neg hk2]

/-- Counterexample for C7 as stated: in the host variant an iteration ending
in a caught unexpected exception leaves the currently-executing reference
pointing at the task instead of resetting it to null. -/
theorem c7_host_exception_keeps_current :
    (build_worker_iter_host "t1" true true
        { current := none, taskStatus := "queued" }).current = some "t1" := by
  decide

/-- Claim C6 (code bug, evaluation): the submission handler accepts a branch
string containing shell metacharacters and stores it verbatim, and the
synchronization routine interpolates that raw string into a command line
handed to the shell. -/
theorem c6_branch_never_validated :
    (api_submit_build_task "dev; echo hacked").1 = true ∧
    (api_submit_build_task "dev; echo hacked").2 = "dev; echo hacked" ∧
    ∃ cmd ∈ (fetch_branch
        { resetOk := true, fetchOk := true, fetchMsg := "", localBranches := [],
          remoteBranches := [], checkoutOk := true, checkoutMsg := "",
          resetOriginOk := true, resetOriginMsg := "", createOk := true, createMsg := "",
          revParseOk := true, shortHash := "h", logOk := true, commitMsgOut := "m" }
        "dev; echo hacked").trace,
      containsSub cmd "dev; echo hacked" = true := by
  refine ⟨rfl, rfl,
    "git show-ref --verify --quiet refs/remotes/origin/dev; echo hacked", ?_, ?_⟩
  · decide
  · decide

/-- Counterexample for C4 as stated: svc variant, branch `main` with only
`origin/main-dev` existing remotely: the substring-based remote check passes
and synchronization fails with a branch-creation error, not with the
remote-branch-missing error. -/
theorem c4_substring_check_counterexample :
    ((fetch_branch_svc
        { resetOk := true, fetchOk := true, fetchMsg := "", branchListOk := true,
          branchListMsg := "", currentBranch := "master", localBranches := ["master"],
          remoteBranches := ["main-dev"], checkoutOk := true, checkoutMsg := "",
          resetOriginOk := true, resetOriginMsg := "", createOk := false,
          createMsg := "fatal" } "main").ok = false) ∧
    ((fetch_branch_svc
        { resetOk := true, fetchOk := true, fetchMsg := "", branchListOk := true,
          branchListMsg := "", currentBranch := "master", localBranches := ["master"],
          remoteBranches := ["main-dev"], checkoutOk := true, checkoutMsg := "",
          resetOriginOk := true, resetOriginMsg := "", createOk := false,
          createMsg := "fatal" } "main").msg = "创建失败: fatal") ∧
    ((fetch_branch_svc
        { resetOk := true, fetchOk := true, fetchMsg := "", branchListOk := true,
          branchListMsg := "", currentBranch := "master", localBranches := ["master"],
          remoteBranches := ["main-dev"], checkoutOk := true, checkoutMsg := "",
          resetOriginOk := true, resetOriginMsg := "", createOk := false,
          createMsg := "fatal" } "main").msg ≠ "远程分支 \x27origin/main\x27 不存在") := by
  refine ⟨by decide, by decide, by decide⟩

/-- Claim C4 (amended): the host variant checks branch existence by exact
show-ref queries: whenever `origin/a` is absent — in particular when only a
distinct branch `b` (for example one that merely contains `a`) exists —
synchronization of `a` fails with the remote-branch-missing error right
after the remote existence check. -/
theorem c4_host_exact_ref_check (env : GitEnv) (a b : String)
    (hfetch : env.fetchOk = true) (honly : env.remoteBranches = [b]) (hne : a ≠ b) :
    fetch_branch env a
      = ⟨false, "远程分支 \x27origin/" ++ a ++ "\x27 不存在",
         ["git reset --hard", "git fetch origin",
          "git show-ref --verify --quiet refs/remotes/origin/" ++ a]⟩ := by
  dsimp only [fetch_branch]
  rw [hfetch, honly]
  have hcontains : (([b] : List String).contains a) = false := by
    have hab : (a == b) = false := beq_eq_false_iff_ne.mpr hne
    simp [List.contains, List.elem, hab]
  rw [hcontains]
  rfl

/-- Witness for C4 at concrete branches: `main` is a strict substring of the
only existing remote branch `main-dev`, and synchronization still fails with
the remote-branch-missing error. -/
theorem c4_host_exact_ref_check_witness :
    fetch_branch
        { resetOk := true, fetchOk := true, fetchMsg := "", localBranches := [],
          remoteBranches := ["main-dev"], checkoutOk := true, checkoutMsg := "",
          resetOriginOk := true, resetOriginMsg := "", createOk := true, createMsg := "",
          revParseOk := true, shortHash := "h", logOk := true, commitMsgOut := "m" } "main"
      = ⟨false, "远程分支 \x27origin/main\x27 不存在",
         ["git reset --hard", "git fetch origin",
          "git show-ref --verify --quiet refs/remotes/origin/main"]⟩ :=
  c4_host_exact_ref_check _ "main" "main-dev" rfl rfl (by decide)

/-- Claim C10: the artifact-lookup endpoint ignores its branch parameter: two
requests with different branch values against the same directory state get
identical responses, and the returned filename is a `*.vsix` file of maximal
modification time in the directory. -/
theorem c10_artifact_lookup_ignores_branch
    (b1 b2 : String) (dir : List (String × Nat)) :
    api_get_artifact b1 dir = api_get_artifact b2 dir ∧
    (∀ r, api_get_artifact b1 dir = some r →
      isVsixName r.filename = true ∧
      ∃ mt, (r.filename, mt) ∈ dir ∧
        ∀ p ∈ dir, isVsixName p.1 = true → p.2 ≤ mt) := by
  constructor
  · rfl
  · intro r hr
    unfold api_get_artifact at hr
    cases hf : find_latest_vsix dir with
    | none =>
      rw [hf] at hr
      simp at hr
    | some f =>
      rw [hf] at hr
      injection hr with hr
      have hspec := find_latest_vsix_spec dir f hf
      rw [← hr]
      exact hspec

/-- Witness for C10 at a concrete directory: both branch values name the
newest `.vsix` file. -/
theorem c10_artifact_lookup_ignores_branch_witness :
    (api_get_artifact "feature-a" [("a.vsix", 1), ("b.vsix", 5), ("c.txt", 9)]
        = api_get_artifact "feature-b" [("a.vsix", 1), ("b.vsix", 5), ("c.txt", 9)]) ∧
    (isVsixName "b.vsix" = true ∧
      ∃ mt, (("b.vsix" : String), mt) ∈ [("a.vsix", 1), ("b.vsix", 5), ("c.txt", 9)] ∧
        ∀ p ∈ [(("a.vsix" : String), (1 : Nat)), ("b.vsix", 5), ("c.txt", 9)],
          isVsixName p.1 = true → p.2 ≤ mt) :=
  ⟨(c10_artifact_lookup_ignores_branch "feature-a" "feature-b" _).1,
   (c10_artifact_lookup_ignores_branch "feature-a" "feature-b"
      [("a.vsix", 1), ("b.vsix", 5), ("c.txt", 9)]).2
     { url := "http://\x7bBUILD_SERVER_IP\x7d:1234/artifacts/b.vsix",
       filename := "b.vsix", message := "产物: b.vsix" }
     (by decide)⟩

/-- Claim C1: in both variants `fetch_branch` issues `git reset --hard` and
then `git fetch origin` first, in that order; its result and trace are
independent of the reset outcome (reset failure is non-fatal, the fetch is
still attempted), whereas a fetch failure makes the whole synchronization
return failure with exactly those two commands issued — no branch-existence
check, checkout, or branch creation; on the all-success path the host
variant issues the full fixed sequence reset, fetch, remote existence
check, local existence check, checkout, hard reset. -/
theorem c1_sync_order_reset_nonfatal_fetch_fatal
    (env : GitEnv) (envS : GitEnvSvc) (branch : String) :
    ((fetch_branch env branch).trace.take 2 = ["git reset --hard", "git fetch origin"]) ∧
    (∀ b : Bool, fetch_branch { env with resetOk := b } branch = fetch_branch env branch) ∧
    (env.fetchOk = false →
      fetch_branch env branch
        = ⟨false, "fetch 失败: " ++ env.fetchMsg,
           ["git reset --hard", "git fetch origin"]⟩) ∧
    (env.fetchOk = true → env.remoteBranches.contains branch = true →
      env.localBranches.contains branch = true → env.checkoutOk = true →
      env.resetOriginOk = true →
      (fetch_branch env branch).trace
        = ["git reset --hard", "git fetch origin",
           "git show-ref --verify --quiet refs/remotes/origin/" ++ branch,
           "git show-ref --verify --quiet refs/heads/" ++ branch,
           "git checkout " ++ branch,
           "git reset --hard origin/" ++ branch] ++ commitTrace env) ∧
    ((fetch_branch_svc envS branch).trace.take 2
        = ["git reset --hard", "git fetch origin"]) ∧
    (∀ b : Bool,
      fetch_branch_svc { envS with resetOk := b } branch = fetch_branch_svc envS branch) ∧
    (envS.fetchOk = false →
      fetch_branch_svc envS branch
        = ⟨false, "fetch 失败: " ++ envS.fetchMsg,
           ["git reset --hard", "git fetch origin"]⟩) := by
  refine ⟨?_, fun b => rfl, ?_, ?_, ?_, fun b => rfl, ?_⟩
  · dsimp only [fetch_branch]
    split_ifs <;> simp
  · intro h
    dsimp only [fetch_branch]
    rw [h]
    rfl
  · intro h1 h2 h3 h4 h5
    dsimp only [fetch_branch]
    rw [h1, h2, h3, h4, h5]
    simp
  · dsimp only [fetch_branch_svc]
    split_ifs <;> simp
  · intro h
    dsimp only [fetch_branch_svc]
    rw [h]
    rfl

/-- Witness for C1: a failing fetch stops both variants after exactly the
two initial commands, and an all-success host run issues the fixed sequence. -/
theorem c1_sync_order_reset_nonfatal_fetch_fatal_witness :
    (fetch_branch
        { resetOk := false, fetchOk := false, fetchMsg := "network down",
          localBranches := [], remoteBranches := [], checkoutOk := true, checkoutMsg := "",
          resetOriginOk := true, resetOriginMsg := "", createOk := true, createMsg := "",
          revParseOk := true, shortHash := "h", logOk := true, commitMsgOut := "m" } "dev"
      = ⟨false, "fetch 失败: " ++ "network down",
         ["git reset --hard", "git fetch origin"]⟩) ∧
    ((fetch_branch
        { resetOk := true, fetchOk := true, fetchMsg := "",
          localBranches := ["dev"], remoteBranches := ["dev"], checkoutOk := true,
          checkoutMsg := "", resetOriginOk := true, resetOriginMsg := "",
          createOk := true, createMsg := "", revParseOk := true, shortHash := "h",
          logOk := true, commitMsgOut := "m" } "dev").trace
      = ["git reset --hard", "git fetch origin",
         "git show-ref --verify --quiet refs/remotes/origin/" ++ "dev",
         "git show-ref --verify --quiet refs/heads/" ++ "dev",
         "git checkout " ++ "dev",
         "git reset --hard origin/" ++ "dev"] ++
        commitTrace
          { resetOk := true, fetchOk := true, fetchMsg := "",
            localBranches := ["dev"], remoteBranches := ["dev"], checkoutOk := true,
            checkoutMsg := "", resetOriginOk := true, resetOriginMsg := "",
            createOk := true, createMsg := "", revParseOk := true, shortHash := "h",
            logOk := true, commitMsgOut := "m" }) ∧
    (fetch_branch_svc
        { resetOk := false, fetchOk := false, fetchMsg := "network down",
          branchListOk := true, branchListMsg := "", currentBranch := "master",
          localBranches := ["master"], remoteBranches := ["dev"], checkoutOk := true,
          checkoutMsg := "", resetOriginOk := true, resetOriginMsg := "",
          createOk := true, createMsg := "" } "dev"
      = ⟨false, "fetch 失败: " ++ "network down",
         ["git reset --hard", "git fetch origin"]⟩) :=
  ⟨(c1_sync_order_reset_nonfatal_fetch_fatal _
      { resetOk := true, fetchOk := true, fetchMsg := "", branchListOk := true,
        branchListMsg := "", currentBranch := "m", localBranches := [],
        remoteBranches := [], checkoutOk := true, checkoutMsg := "",
        resetOriginOk := true, resetOriginMsg := "", createOk := true,
        createMsg := "" } "dev").2.2.1 rfl,
   (c1_sync_order_reset_nonfatal_fetch_fatal _
      { resetOk := true, fetchOk := true, fetchMsg := "", branchListOk := true,
        branchListMsg := "", currentBranch := "m", localBranches := [],
        remoteBranches := [], checkoutOk := true, checkoutMsg := "",
        resetOriginOk := true, resetOriginMsg := "", createOk := true,
        createMsg := "" } "dev").2.2.2.1 rfl (by decide) (by decide) rfl rfl,
   (c1_sync_order_reset_nonfatal_fetch_fatal
      { resetOk := true, fetchOk := true, fetchMsg := "", localBranches := [],
        remoteBranches := [], checkoutOk := true, checkoutMsg := "",
        resetOriginOk := true, resetOriginMsg := "", createOk := true, createMsg := "",
        revParseOk := true, shortHash := "h", logOk := true, commitMsgOut := "m" }
      _ "dev").2.2.2.2.2.2 rfl⟩

theorem msgLine_stepFailMsg (name : String) (res : StepResult) (e : String)
    (hname : '\n' ∉ name.data) (hf : stepFailMsg name res = some e) :
    msgLine (markerTag res ++ e) = true := by
  cases res with
  | exited code out err =>
    dsimp only [stepFailMsg] at hf
    by_cases hc : code ≠ 0
    · rw [if_pos hc] at hf
      injection hf with he
      subst he
      dsimp only [markerTag]
      exact msgLine_bracket_paren "[失败] " (name ++ " 执行失败 (exit code: " ++ intStr code)
        ("失败] ".data) (by decide) (by decide)
        (no_nl_append (no_nl_append hname (by decide)) (intStr_not_nl code))
    · rw [if_neg hc] at hf
      simp at hf
  | timedOut =>
    dsimp only [stepFailMsg] at hf
    injection hf with he
    subst he
    dsimp only [markerTag]
    apply msgLine_of_shape _ '['
      ("超时] ".data ++ (name.data ++ (" 执行超时 (>" : String).data ++
        (intStr (Int.ofNat BUILD_TIMEOUT)).data ++ ['s'])) ')'
    · have h1 : ("[超时] " : String).data = '[' :: ("超时] " : String).data := by decide
      have h2 : ("s)" : String).data = ['s', ')'] := by decide
      simp [String.data_append, h1, h2, List.append_assoc]
    · decide
    · decide
    · decide
    · refine no_nl_append (by decide) ?_
      refine no_nl_append (no_nl_append (no_nl_append hname (by decide))
        (intStr_not_nl _)) ?_
      decide

theorem marker_data_err (e : String) :
    (("\n[错误] " ++ e ++ "\n") : String).data
      = '\n' :: ((("[错误] " ++ e) : String).data ++ ['\n']) := by
  have h1 : ("\n[错误] " : String).data = '\n' :: ("[错误] " : String).data := by decide
  have h2 : ("\n" : String).data = ['\n'] := by decide
  simp [String.data_append, h1, h2]

theorem msgLine_stepFailMsgHost (name : String) (res : StepResult) (e : String)
    (hname : '\n' ∉ name.data) (hf : stepFailMsgHost name res = some e) :
    msgLine (markerTagHost ++ e) = true := by
  cases res with
  | exited code out err =>
    dsimp only [stepFailMsgHost] at hf
    by_cases hc : code ≠ 0
    · rw [if_pos hc] at hf
      injection hf with he
      subst he
      dsimp only [markerTagHost]
      exact msgLine_bracket_paren "[错误] " (name ++ " 执行失败 (exit code: " ++ intStr code)
        ("错误] ".data) (by decide) (by decide)
        (no_nl_append (no_nl_append hname (by decide)) (intStr_not_nl code))
    · rw [if_neg hc] at hf
      simp at hf
  | timedOut =>
    dsimp only [stepFailMsgHost] at hf
    injection hf with he
    subst he
    dsimp only [markerTagHost]
    apply msgLine_of_shape _ '['
      ("错误] ".data ++ (name.data ++ (" 执行超时（超过" : String).data ++
        (intStr (Int.ofNat BUILD_TIMEOUT)).data ++ ['秒'])) '）'
    · have h1 : ("[错误] " : String).data = '[' :: ("错误] " : String).data := by decide
      have h2 : ("秒）" : String).data = ['秒', '）'] := by decide
      simp [String.data_append, h1, h2, List.append_assoc]
    · decide
    · decide
    · decide
    · refine no_nl_append (by decide) ?_
      refine no_nl_append (no_nl_append (no_nl_append hname (by decide))
        (intStr_not_nl _)) ?_
      decide

theorem runStepHost_fail_fields (st : TaskState) (name : String) (res : StepResult) (e : String)
    (hf : stepFailMsgHost name res = some e)
    (hm : msgLine (markerTagHost ++ e) = true) :
    (runStepHost st name res).2 = some e ∧
    (runStepHost st name res).1.status = "failed" ∧
    (runStepHost st name res).1.errorMessage = markerTagHost ++ e ∧
    (∃ p, (runStepHost st name res).1.logs = p ++ markerLineHost e) := by
  cases res with
  | exited code out err =>
    dsimp only [stepFailMsgHost] at hf
    by_cases hc : code ≠ 0
    · rw [if_pos hc] at hf
      injection hf with he
      subst he
      dsimp only [markerTagHost, markerLineHost] at hm ⊢
      dsimp only [runStepHost]
      rw [if_pos hc]
      rw [append_task_log_wrap _ _ _ (marker_data_err _) hm]
      exact ⟨rfl, rfl, rfl, _, rfl⟩
    · rw [if_neg hc] at hf
      simp at hf
  | timedOut =>
    dsimp only [stepFailMsgHost] at hf
    injection hf with he
    subst he
    dsimp only [markerTagHost, markerLineHost] at hm ⊢
    dsimp only [runStepHost]
    rw [append_task_log_wrap _ _ _ (marker_data_err _) hm]
    exact ⟨rfl, rfl, rfl, _, rfl⟩

theorem runStepHost_ok_pair (st : TaskState) (name out err : String) :
    ∃ mid, runStepHost st name (.exited 0 out err) = (mid, none) := by
  dsimp only [runStepHost]
  rw [if_neg (by simp : ¬(0 : Int) ≠ 0)]
  exact ⟨_, rfl⟩

theorem execute_host_of_runSteps_fail (t : TaskInfo) (env : BuildEnv) (task : TaskState)
    (st : TaskState) (e : String) (ex : List String)
    (h : runSteps runStepHost
          { task with status := "building", fileContent := initHeader t } (stepsOf env)
        = (st, some e, ex)) :
    execute_npm_commands_host t env task = ⟨st, false, e, ex⟩ := by
  dsimp only [execute_npm_commands_host]
  rw [h]

/-- Claim C2: whenever one of the three ordered build steps exits non-zero or
times out, the pipeline returns failure at once: the executed-step list stops
at that step, nothing later is run or appended (the outcome is independent of
the later steps' configured results and of the artifacts directory), a
failure-marker line is appended last to the log, the error-message field
records the step name (and the exit code for a non-zero exit), and the task
is left in the failed state. -/
theorem c2_pipeline_stops_at_first_failure
    (t : TaskInfo) (task : TaskState) (env : BuildEnv) :
    (∀ e, stepFailMsg "npm i" env.install = some e →
      (execute_npm_commands t env task).ok = false ∧
      (execute_npm_commands t env task).msg = e ∧
      (execute_npm_commands t env task).executed = ["npm i"] ∧
      (execute_npm_commands t env task).st.status = "failed" ∧
      (execute_npm_commands t env task).st.errorMessage = markerTag env.install ++ e ∧
      (∃ p, (execute_npm_commands t env task).st.logs = p ++ markerLine env.install e) ∧
      (∀ b pk a2, execute_npm_commands t ⟨env.install, b, pk, a2⟩ task
          = execute_npm_commands t env task)) ∧
    (StepOk env.install →
      ∀ e, stepFailMsg "npm run build" env.build = some e →
      (execute_npm_commands t env task).ok = false ∧
      (execute_npm_commands t env task).msg = e ∧
      (execute_npm_commands t env task).executed = ["npm i", "npm run build"] ∧
      (execute_npm_commands t env task).st.status = "failed" ∧
      (execute_npm_commands t env task).st.errorMessage = markerTag env.build ++ e ∧
      (∃ p, (execute_npm_commands t env task).st.logs = p ++ markerLine env.build e) ∧
      (∀ pk a2, execute_npm_commands t ⟨env.install, env.build, pk, a2⟩ task
          = execute_npm_commands t env task)) ∧
    (StepOk env.install → StepOk env.build →
      ∀ e, stepFailMsg "npm run package" env.package = some e →
      (execute_npm_commands t env task).ok = false ∧
      (execute_npm_commands t env task).msg = e ∧
      (execute_npm_commands t env task).executed
          = ["npm i", "npm run build", "npm run package"] ∧
      (execute_npm_commands t env task).st.status = "failed" ∧
      (execute_npm_commands t env task).st.errorMessage = markerTag env.package ++ e ∧
      (∃ p, (execute_npm_commands t env task).st.logs = p ++ markerLine env.package e) ∧
      (∀ a2, execute_npm_commands t ⟨env.install, env.build, env.package, a2⟩ task
          = execute_npm_commands t env task)) ∧
    (∀ e, stepFailMsgHost "npm i" env.install = some e →
      (execute_npm_commands_host t env task).ok = false ∧
      (execute_npm_commands_host t env task).msg = e ∧
      (execute_npm_commands_host t env task).executed = ["npm i"] ∧
      (execute_npm_commands_host t env task).st.status = "failed" ∧
      (execute_npm_commands_host t env task).st.errorMessage = markerTagHost ++ e ∧
      (∃ p, (execute_npm_commands_host t env task).st.logs = p ++ markerLineHost e) ∧
      (∀ b pk a2, execute_npm_commands_host t ⟨env.install, b, pk, a2⟩ task
          = execute_npm_commands_host t env task)) ∧
    (StepOk env.install →
      ∀ e, stepFailMsgHost "npm run build" env.build = some e →
      (execute_npm_commands_host t env task).ok = false ∧
      (execute_npm_commands_host t env task).msg = e ∧
      (execute_npm_commands_host t env task).executed = ["npm i", "npm run build"] ∧
      (execute_npm_commands_host t env task).st.status = "failed" ∧
      (execute_npm_commands_host t env task).st.errorMessage = markerTagHost ++ e ∧
      (∃ p, (execute_npm_commands_host t env task).st.logs = p ++ markerLineHost e) ∧
      (∀ pk a2, execute_npm_commands_host t ⟨env.install, env.build, pk, a2⟩ task
          = execute_npm_commands_host t env task)) ∧
    (StepOk env.install → StepOk env.build →
      ∀ e, stepFailMsgHost "npm run package" env.package = some e →
      (execute_npm_commands_host t env task).ok = false ∧
      (execute_npm_commands_host t env task).msg = e ∧
      (execute_npm_commands_host t env task).executed
          = ["npm i", "npm run build", "npm run package"] ∧
      (execute_npm_commands_host t env task).st.status = "failed" ∧
      (execute_npm_commands_host t env task).st.errorMessage = markerTagHost ++ e ∧
      (∃ p, (execute_npm_commands_host t env task).st.logs = p ++ markerLineHost e) ∧
      (∀ a2, execute_npm_commands_host t ⟨env.install, env.build, env.package, a2⟩ task
          = execute_npm_commands_host t env task)) := by
  refine ⟨?_, ?_, ?_, ?_, ?_, ?_⟩
  · intro e hf
    obtain ⟨h2, hstat, herr, hlogs⟩ := runStepSvc_fail_fields
      { task with status := "building", fileContent := initHeader t } "npm i" env.install e hf
      (msgLine_stepFailMsg "npm i" env.install e (by decide) hf)
    have hall : runSteps runStepSvc
        { task with status := "building", fileContent := initHeader t } (stepsOf env)
        = ((runStepSvc { task with status := "building", fileContent := initHeader t }
            "npm i" env.install).1, some e, ["npm i"]) := by
      rw [show stepsOf env = ("npm i", env.install) ::
            [("npm run build", env.build), ("npm run package", env.package)] from rfl]
      exact runSteps_cons_fail _ _ _ _ _ _ h2
    have hexec := execute_of_runSteps_fail t env task _ e _ hall
    refine ⟨by rw [hexec], by rw [hexec], by rw [hexec], ?_, ?_, ?_, ?_⟩
    · rw [hexec]
      exact hstat
    · rw [hexec]
      exact herr
    · rw [hexec]
      exact hlogs
    · intro b pk a2
      have hall2 : runSteps runStepSvc
          { task with status := "building", fileContent := initHeader t }
          (stepsOf ⟨env.install, b, pk, a2⟩)
          = ((runStepSvc { task with status := "building", fileContent := initHeader t }
              "npm i" env.install).1, some e, ["npm i"]) := by
        rw [show stepsOf ⟨env.install, b, pk, a2⟩ = ("npm i", env.install) ::
              [("npm run build", b), ("npm run package", pk)] from rfl]
        exact runSteps_cons_fail _ _ _ _ _ _ h2
      rw [execute_of_runSteps_fail t ⟨env.install, b, pk, a2⟩ task _ e _ hall2, hexec]
  · rintro ⟨o1, er1, hio⟩ e hf
    obtain ⟨h2, hstat, herr, hlogs⟩ := runStepSvc_fail_fields
      (appendStderrSvc (appendStdoutSvc (append_task_log
        { task with status := "building", fileContent := initHeader t }
        (headerFor "npm i")) o1) er1) "npm run build" env.build e hf
      (msgLine_stepFailMsg "npm run build" env.build e (by decide) hf)
    have hok1 : runStepSvc { task with status := "building", fileContent := initHeader t }
        "npm i" env.install
        = (appendStderrSvc (appendStdoutSvc (append_task_log
            { task with status := "building", fileContent := initHeader t }
            (headerFor "npm i")) o1) er1, none) := by
      rw [hio]
      exact runStepSvc_ok _ _ _ _
    have hall : runSteps runStepSvc
        { task with status := "building", fileContent := initHeader t } (stepsOf env)
        = ((runStepSvc (appendStderrSvc (appendStdoutSvc (append_task_log
            { task with status := "building", fileContent := initHeader t }
            (headerFor "npm i")) o1) er1) "npm run build" env.build).1,
           some e, ["npm i", "npm run build"]) := by
      rw [show stepsOf env = ("npm i", env.install) ::
            [("npm run build", env.build), ("npm run package", env.package)] from rfl]
      rw [runSteps_cons_ok _ _ _ _ _ _ hok1]
      rw [runSteps_cons_fail _ _ _ _ _ _ h2]
    have hexec := execute_of_runSteps_fail t env task _ e _ hall
    refine ⟨by rw [hexec], by rw [hexec], by rw [hexec], ?_, ?_, ?_, ?_⟩
    · rw [hexec]
      exact hstat
    · rw [hexec]
      exact herr
    · rw [hexec]
      exact hlogs
    · intro pk a2
      have hall2 : runSteps runStepSvc
          { task with status := "building", fileContent := initHeader t }
          (stepsOf ⟨env.install, env.build, pk, a2⟩)
          = ((runStepSvc (appendStderrSvc (appendStdoutSvc (append_task_log
              { task with status := "building", fileContent := initHeader t }
              (headerFor "npm i")) o1) er1) "npm run build" env.build).1,
             some e, ["npm i", "npm run build"]) := by
        rw [show stepsOf ⟨env.install, env.build, pk, a2⟩ = ("npm i", env.install) ::
              [("npm run build", env.build), ("npm run package", pk)] from rfl]
        rw [runSteps_cons_ok _ _ _ _ _ _ hok1]
        rw [runSteps_cons_fail _ _ _ _ _ _ h2]
      rw [execute_of_runSteps_fail t ⟨env.install, env.build, pk, a2⟩ task _ e _ hall2, hexec]
  · rintro ⟨o1, er1, hio⟩ ⟨o2, er2, hio2⟩ e hf
    obtain ⟨h2, hstat, herr, hlogs⟩ := runStepSvc_fail_fields
      (appendStderrSvc (appendStdoutSvc (append_task_log (appendStderrSvc (appendStdoutSvc
        (append_task_log { task with status := "building", fileContent := initHeader t }
        (headerFor "npm i")) o1) er1) (headerFor "npm run build")) o2) er2)
      "npm run package" env.package e hf
      (msgLine_stepFailMsg "npm run package" env.package e (by decide) hf)
    have hok1 : runStepSvc { task with status := "building", fileContent := initHeader t }
        "npm i" env.install
        = (appendStderrSvc (appendStdoutSvc (append_task_log
            { task with status := "building", fileContent := initHeader t }
            (headerFor "npm i")) o1) er1, none) := by
      rw [hio]
      exact runStepSvc_ok _ _ _ _
    have hok2 : runStepSvc (appendStderrSvc (appendStdoutSvc (append_task_log
        { task with status := "building", fileContent := initHeader t }
        (headerFor "npm i")) o1) er1) "npm run build" env.build
        = (appendStderrSvc (appendStdoutSvc (append_task_log (appendStderrSvc (appendStdoutSvc
            (append_task_log { task with status := "building", fileContent := initHeader t }
            (headerFor "npm i")) o1) er1) (headerFor "npm run build")) o2) er2, none) := by
      rw [hio2]
      exact runStepSvc_ok _ _ _ _
    have hall : runSteps runStepSvc
        { task with status := "building", fileContent := initHeader t } (stepsOf env)
        = ((runStepSvc (appendStderrSvc (appendStdoutSvc (append_task_log (appendStderrSvc
            (appendStdoutSvc (append_task_log
              { task with status := "building", fileContent := initHeader t }
              (headerFor "npm i")) o1) er1) (headerFor "npm run build")) o2) er2)
            "npm run package" env.package).1,
           some e, ["npm i", "npm run build", "npm run package"]) := by
      rw [show stepsOf env = ("npm i", env.install) ::
            [("npm run build", env.build), ("npm run package", env.package)] from rfl]
      rw [runSteps_cons_ok _ _ _ _ _ _ hok1]
      rw [runSteps_cons_ok _ _ _ _ _ _ hok2]
      rw [runSteps_cons_fail _ _ _ _ _ _ h2]
    have hexec := execute_of_runSteps_fail t env task _ e _ hall
    refine ⟨by rw [hexec], by rw [hexec], by rw [hexec], ?_, ?_, ?_, ?_⟩
    · rw [hexec]
      exact hstat
    · rw [hexec]
      exact herr
    · rw [hexec]
      exact hlogs
    · intro a2
      have hall2 : runSteps runStepSvc
          { task with status := "building", fileContent := initHeader t }
          (stepsOf ⟨env.install, env.build, env.package, a2⟩)
          = ((runStepSvc (appendStderrSvc (appendStdoutSvc (append_task_log (appendStderrSvc
              (appendStdoutSvc (append_task_log
                { task with status := "building", fileContent := initHeader t }
                (headerFor "npm i")) o1) er1) (headerFor "npm run build")) o2) er2)
              "npm run package" env.package).1,
             some e, ["npm i", "npm run build", "npm run package"]) := by
        rw [show stepsOf ⟨env.install, env.build, env.package, a2⟩ = ("npm i", env.install) ::
              [("npm run build", env.build), ("npm run package", env.package)] from rfl]
        rw [runSteps_cons_ok _ _ _ _ _ _ hok1]
        rw [runSteps_cons_ok _ _ _ _ _ _ hok2]
        rw [runSteps_cons_fail _ _ _ _ _ _ h2]
      rw [execute_of_runSteps_fail t ⟨env.install, env.build, env.package, a2⟩ task _ e _ hall2,
          hexec]
  · intro e hf
    obtain ⟨h2, hstat, herr, hlogs⟩ := runStepHost_fail_fields
      { task with status := "building", fileContent := initHeader t } "npm i" env.install e hf
      (msgLine_stepFailMsgHost "npm i" env.install e (by decide) hf)
    have hall : runSteps runStepHost
        { task with status := "building", fileContent := initHeader t } (stepsOf env)
        = ((runStepHost { task with status := "building", fileContent := initHeader t }
            "npm i" env.install).1, some e, ["npm i"]) := by
      rw [show stepsOf env = ("npm i", env.install) ::
            [("npm run build", env.build), ("npm run package", env.package)] from rfl]
      exact runSteps_cons_fail _ _ _ _ _ _ h2
    have hexec := execute_host_of_runSteps_fail t env task _ e _ hall
    refine ⟨by rw [hexec], by rw [hexec], by rw [hexec], ?_, ?_, ?_, ?_⟩
    · rw [hexec]
      exact hstat
    · rw [hexec]
      exact herr
    · rw [hexec]
      exact hlogs
    · intro b pk a2
      have hall2 : runSteps runStepHost
          { task with status := "building", fileContent := initHeader t }
          (stepsOf ⟨env.install, b, pk, a2⟩)
          = ((runStepHost { task with status := "building", fileContent := initHeader t }
              "npm i" env.install).1, some e, ["npm i"]) := by
        rw [show stepsOf ⟨env.install, b, pk, a2⟩ = ("npm i", env.install) ::
              [("npm run build", b), ("npm run package", pk)] from rfl]
        exact runSteps_cons_fail _ _ _ _ _ _ h2
      rw [execute_host_of_runSteps_fail t ⟨env.install, b, pk, a2⟩ task _ e _ hall2, hexec]
  · rintro ⟨o1, er1, hio⟩ e hf
    obtain ⟨mid1, hok1p⟩ := runStepHost_ok_pair
      { task with status := "building", fileContent := initHeader t } "npm i" o1 er1
    have hok1 : runStepHost { task with status := "building", fileContent := initHeader t }
        "npm i" env.install = (mid1, none) := by
      rw [hio]
      exact hok1p
    obtain ⟨h2, hstat, herr, hlogs⟩ := runStepHost_fail_fields mid1 "npm run build" env.build e hf
      (msgLine_stepFailMsgHost "npm run build" env.build e (by decide) hf)
    have hall : runSteps runStepHost
        { task with status := "building", fileContent := initHeader t } (stepsOf env)
        = ((runStepHost mid1 "npm run build" env.build).1,
           some e, ["npm i", "npm run build"]) := by
      rw [show stepsOf env = ("npm i", env.install) ::
            [("npm run build", env.build), ("npm run package", env.package)] from rfl]
      rw [runSteps_cons_ok _ _ _ _ _ _ hok1]
      rw [runSteps_cons_fail _ _ _ _ _ _ h2]
    have hexec := execute_host_of_runSteps_fail t env task _ e _ hall
    refine ⟨by rw [hexec], by rw [hexec], by rw [hexec], ?_, ?_, ?_, ?_⟩
    · rw [hexec]
      exact hstat
    · rw [hexec]
      exact herr
    · rw [hexec]
      exact hlogs
    · intro pk a2
      have hall2 : runSteps runStepHost
          { task with status := "building", fileContent := initHeader t }
          (stepsOf ⟨env.install, env.build, pk, a2⟩)
          = ((runStepHost mid1 "npm run build" env.build).1,
             some e, ["npm i", "npm run build"]) := by
        rw [show stepsOf ⟨env.install, env.build, pk, a2⟩ = ("npm i", env.install) ::
              [("npm run build", env.build), ("npm run package", pk)] from rfl]
        rw [runSteps_cons_ok _ _ _ _ _ _ hok1]
        rw [runSteps_cons_fail _ _ _ _ _ _ h2]
      rw [execute_host_of_runSteps_fail t ⟨env.install, env.build, pk, a2⟩ task _ e _ hall2,
          hexec]
  · rintro ⟨o1, er1, hio⟩ ⟨o2, er2, hio2⟩ e hf
    obtain ⟨mid1, hok1p⟩ := runStepHost_ok_pair
      { task with status := "building", fileContent := initHeader t } "npm i" o1 er1
    have hok1 : runStepHost { task with status := "building", fileContent := initHeader t }
        "npm i" env.install = (mid1, none) := by
      rw [hio]
      exact hok1p
    obtain ⟨mid2, hok2p⟩ := runStepHost_ok_pair mid1 "npm run build" o2 er2
    have hok2 : runStepHost mid1 "npm run build" env.build = (mid2, none) := by
      rw [hio2]
      exact hok2p
    obtain ⟨h2, hstat, herr, hlogs⟩ := runStepHost_fail_fields mid2
      "npm run package" env.package e hf
      (msgLine_stepFailMsgHost "npm run package" env.package e (by decide) hf)
    have hall : runSteps runStepHost
        { task with status := "building", fileContent := initHeader t } (stepsOf env)
        = ((runStepHost mid2 "npm run package" env.package).1,
           some e, ["npm i", "npm run build", "npm run package"]) := by
      rw [show stepsOf env = ("npm i", env.install) ::
            [("npm run build", env.build), ("npm run package", env.package)] from rfl]
      rw [runSteps_cons_ok _ _ _ _ _ _ hok1]
      rw [runSteps_cons_ok _ _ _ _ _ _ hok2]
      rw [runSteps_cons_fail _ _ _ _ _ _ h2]
    have hexec := execute_host_of_runSteps_fail t env task _ e _ hall
    refine ⟨by rw [hexec], by rw [hexec], by rw [hexec], ?_, ?_, ?_, ?_⟩
    · rw [hexec]
      exact hstat
    · rw [hexec]
      exact herr
    · rw [hexec]
      exact hlogs
    · intro a2
      have hall2 : runSteps runStepHost
          { task with status := "building", fileContent := initHeader t }
          (stepsOf ⟨env.install, env.build, env.package, a2⟩)
          = ((runStepHost mid2 "npm run package" env.package).1,
             some e, ["npm i", "npm run build", "npm run package"]) := by
        rw [show stepsOf ⟨env.install, env.build, env.package, a2⟩ = ("npm i", env.install) ::
              [("npm run build", env.build), ("npm run package", env.package)] from rfl]
        rw [runSteps_cons_ok _ _ _ _ _ _ hok1]
        rw [runSteps_cons_ok _ _ _ _ _ _ hok2]
        rw [runSteps_cons_fail _ _ _ _ _ _ h2]
      rw [execute_host_of_runSteps_fail t ⟨env.install, env.build, env.package, a2⟩
            task _ e _ hall2, hexec]

/-- Witness for C2: in both variants, each of the three steps failing
(non-zero exit, timeout, non-zero exit respectively) stops the pipeline at
that step with the task failed. -/
theorem c2_pipeline_stops_at_first_failure_witness :
    ((execute_npm_commands ⟨"t1", "main", "S", "E"⟩
        ⟨.exited 2 "o" "er", .exited 0 "" "", .exited 0 "" "", []⟩
        initialTaskState).executed = ["npm i"]) ∧
    ((execute_npm_commands ⟨"t1", "main", "S", "E"⟩
        ⟨.exited 0 "" "", .timedOut, .exited 0 "" "", []⟩
        initialTaskState).executed = ["npm i", "npm run build"]) ∧
    ((execute_npm_commands ⟨"t1", "main", "S", "E"⟩
        ⟨.exited 0 "" "", .exited 0 "" "", .exited 1 "" "", []⟩
        initialTaskState).st.status = "failed") ∧
    ((execute_npm_commands_host ⟨"t1", "main", "S", "E"⟩
        ⟨.exited 2 "o" "er", .exited 0 "" "", .exited 0 "" "", []⟩
        initialTaskState).executed = ["npm i"]) ∧
    ((execute_npm_commands_host ⟨"t1", "main", "S", "E"⟩
        ⟨.exited 0 "" "", .timedOut, .exited 0 "" "", []⟩
        initialTaskState).executed = ["npm i", "npm run build"]) ∧
    ((execute_npm_commands_host ⟨"t1", "main", "S", "E"⟩
        ⟨.exited 0 "" "", .exited 0 "" "", .exited 1 "" "", []⟩
        initialTaskState).st.status = "failed") :=
  ⟨((c2_pipeline_stops_at_first_failure ⟨"t1", "main", "S", "E"⟩ initialTaskState
      ⟨.exited 2 "o" "er", .exited 0 "" "", .exited 0 "" "", []⟩).1
      ("npm i" ++ " 执行失败 (exit code: " ++ intStr 2 ++ ")") (by decide)).2.2.1,
   ((c2_pipeline_stops_at_first_failure ⟨"t1", "main", "S", "E"⟩ initialTaskState
      ⟨.exited 0 "" "", .timedOut, .exited 0 "" "", []⟩).2.1 ⟨"", "", rfl⟩
      ("npm run build" ++ " 执行超时 (>" ++ intStr (Int.ofNat BUILD_TIMEOUT) ++ "s)")
      (by decide)).2.2.1,
   ((c2_pipeline_stops_at_first_failure ⟨"t1", "main", "S", "E"⟩ initialTaskState
      ⟨.exited 0 "" "", .exited 0 "" "", .exited 1 "" "", []⟩).2.2.1 ⟨"", "", rfl⟩ ⟨"", "", rfl⟩
      ("npm run package" ++ " 执行失败 (exit code: " ++ intStr 1 ++ ")")
      (by decide)).2.2.2.1,
   ((c2_pipeline_stops_at_first_failure ⟨"t1", "main", "S", "E"⟩ initialTaskState
      ⟨.exited 2 "o" "er", .exited 0 "" "", .exited 0 "" "", []⟩).2.2.2.1
      ("npm i" ++ " 执行失败 (exit code: " ++ intStr 2 ++ ")") (by decide)).2.2.1,
   ((c2_pipeline_stops_at_first_failure ⟨"t1", "main", "S", "E"⟩ initialTaskState
      ⟨.exited 0 "" "", .timedOut, .exited 0 "" "", []⟩).2.2.2.2.1 ⟨"", "", rfl⟩
      ("npm run build" ++ " 执行超时（超过" ++ intStr (Int.ofNat BUILD_TIMEOUT) ++ "秒）")
      (by decide)).2.2.1,
   ((c2_pipeline_stops_at_first_failure ⟨"t1", "main", "S", "E"⟩ initialTaskState
      ⟨.exited 0 "" "", .exited 0 "" "", .exited 1 "" "", []⟩).2.2.2.2.2 ⟨"", "", rfl⟩
      ⟨"", "", rfl⟩
      ("npm run package" ++ " 执行失败 (exit code: " ++ intStr 1 ++ ")")
      (by decide)).2.2.2.1⟩

theorem appendRawHost_logs (st : TaskState) (s : String) :
    (if s = "" then st else append_task_log st s).logs = st.logs ++ s ∧
    (if s = "" then st else append_task_log st s).fileContent = st.fileContent ++ s := by
  by_cases h : s = ""
  · rw [if_pos h, h]
    exact ⟨(String.append_empty _).symm, (String.append_empty _).symm⟩
  · rw [if_neg h]
    exact ⟨append_task_log_logs st s, append_task_log_fileContent st s⟩

theorem mk_logs (a b c d f : String) : (TaskState.mk a b c d f).logs = a := rfl

theorem mk_fileContent (a b c d f : String) : (TaskState.mk a b c d f).fileContent = b := rfl

/-- Claim C9 (amended): for every step that ran — whatever its exit code, and
also on a timeout — the svc variant appends the step banner, then the stdout
split line-by-line, then every non-blank stderr line with the `[stderr] `
error-stream marker, identically to the in-memory log and the log file and
in original order, followed by the failure marker exactly when the step
failed; the host variant instead appends the raw stdout chunk and then the
raw stderr chunk, with no per-line processing and no error-stream marker. -/
theorem c9_step_output_appending (st : TaskState) (name out err : String) (code : Int) :
    ((runStepSvc st name (.exited code out err)).1.logs
        = st.logs ++ headerFor name ++ stdoutChunk out ++ stderrChunk err ++
          (if code = 0 then "" else
            "\n[失败] " ++ (name ++ " 执行失败 (exit code: " ++ intStr code ++ ")") ++ "\n")) ∧
    ((runStepSvc st name (.exited code out err)).1.fileContent
        = st.fileContent ++ headerFor name ++ stdoutChunk out ++ stderrChunk err ++
          (if code = 0 then "" else
            "\n[失败] " ++ (name ++ " 执行失败 (exit code: " ++ intStr code ++ ")") ++ "\n")) ∧
    ((runStepHost st name (.exited code out err)).1.logs
        = st.logs ++ headerFor name ++ out ++ err ++
          (if code = 0 then "" else
            "\n[错误] " ++ (name ++ " 执行失败 (exit code: " ++ intStr code ++ ")") ++ "\n")) ∧
    ((runStepHost st name (.exited code out err)).1.fileContent
        = st.fileContent ++ headerFor name ++ out ++ err ++
          (if code = 0 then "" else
            "\n[错误] " ++ (name ++ " 执行失败 (exit code: " ++ intStr code ++ ")") ++ "\n")) ∧
    ((runStepSvc st name .timedOut).1.logs
        = st.logs ++ headerFor name ++
          ("\n[超时] " ++ (name ++ " 执行超时 (>" ++ intStr (Int.ofNat BUILD_TIMEOUT) ++ "s)")
            ++ "\n")) ∧
    ((runStepSvc st name .timedOut).1.fileContent
        = st.fileContent ++ headerFor name ++
          ("\n[超时] " ++ (name ++ " 执行超时 (>" ++ intStr (Int.ofNat BUILD_TIMEOUT) ++ "s)")
            ++ "\n")) ∧
    ((runStepHost st name .timedOut).1.logs
        = st.logs ++ headerFor name ++
          ("\n[错误] " ++ (name ++ " 执行超时（超过" ++ intStr (Int.ofNat BUILD_TIMEOUT) ++ "秒）")
            ++ "\n")) ∧
    ((runStepHost st name .timedOut).1.fileContent
        = st.fileContent ++ headerFor name ++
          ("\n[错误] " ++ (name ++ " 执行超时（超过" ++ intStr (Int.ofNat BUILD_TIMEOUT) ++ "秒）")
            ++ "\n")) := by
  have hsvcok := runStepSvc_ok st name out err
  have hhostok : runStepHost st name (.exited 0 out err)
      = (let st1 := append_task_log st (headerFor name)
         let st2 := if out = "" then st1 else append_task_log st1 out
         (if err = "" then st2 else append_task_log st2 err, none)) := by
    dsimp only [runStepHost]
    rw [if_neg (by simp : ¬(0 : Int) ≠ 0)]
  refine ⟨?_, ?_, ?_, ?_, ?_, ?_, ?_, ?_⟩
  · by_cases hc : code = 0
    · subst hc
      rw [hsvcok, if_pos rfl, String.append_empty]
      rw [show ((appendStderrSvc (appendStdoutSvc (append_task_log st (headerFor name)) out) err,
          (none : Option String)).1) = appendStderrSvc (appendStdoutSvc
          (append_task_log st (headerFor name)) out) err from rfl]
      rw [(appendStderrSvc_logs _ err).1, (appendStdoutSvc_logs _ out).1, append_task_log_logs]
    · dsimp only [runStepSvc]
      rw [if_pos hc, if_neg hc]
      dsimp only
      rw [append_task_log_logs, mk_logs,
          (appendStderrSvc_logs _ err).1, (appendStdoutSvc_logs _ out).1, append_task_log_logs]
  · by_cases hc : code = 0
    · subst hc
      rw [hsvcok, if_pos rfl, String.append_empty]
      rw [show ((appendStderrSvc (appendStdoutSvc (append_task_log st (headerFor name)) out) err,
          (none : Option String)).1) = appendStderrSvc (appendStdoutSvc
          (append_task_log st (headerFor name)) out) err from rfl]
      rw [(appendStderrSvc_logs _ err).2, (appendStdoutSvc_logs _ out).2,
          append_task_log_fileContent]
    · dsimp only [runStepSvc]
      rw [if_pos hc, if_neg hc]
      dsimp only
      rw [append_task_log_fileContent, mk_fileContent,
          (appendStderrSvc_logs _ err).2, (appendStdoutSvc_logs _ out).2,
          append_task_log_fileContent]
  · by_cases hc : code = 0
    · subst hc
      rw [hhostok, if_pos rfl, String.append_empty]
      show (if err = "" then _ else append_task_log _ err).logs = _
      rw [(appendRawHost_logs _ err).1, (appendRawHost_logs _ out).1, append_task_log_logs]
    · dsimp only [runStepHost]
      rw [if_pos hc, if_neg hc]
      dsimp only
      rw [append_task_log_logs, mk_logs,
          (appendRawHost_logs _ err).1, (appendRawHost_logs _ out).1, append_task_log_logs]
  · by_cases hc : code = 0
    · subst hc
      rw [hhostok, if_pos rfl, String.append_empty]
      show (if err = "" then _ else append_task_log _ err).fileContent = _
      rw [(appendRawHost_logs _ err).2, (appendRawHost_logs _ out).2,
          append_task_log_fileContent]
    · dsimp only [runStepHost]
      rw [if_pos hc, if_neg hc]
      dsimp only
      rw [append_task_log_fileContent, mk_fileContent,
          (appendRawHost_logs _ err).2, (appendRawHost_logs _ out).2,
          append_task_log_fileContent]
  · dsimp only [runStepSvc]
    rw [append_task_log_logs, mk_logs, append_task_log_logs]
  · dsimp only [runStepSvc]
    rw [append_task_log_fileContent, mk_fileContent, append_task_log_fileContent]
  · dsimp only [runStepHost]
    rw [append_task_log_logs, mk_logs, append_task_log_logs]
  · dsimp only [runStepHost]
    rw [append_task_log_fileContent, mk_fileContent, append_task_log_fileContent]

set_option maxRecDepth 100000 in
/-- Counterexample for C9 as stated: a host-variant run whose first step
prints `oops` on stderr has the raw text in the accumulated log but no
`[stderr]` marker anywhere; the svc variant produces the marked line. -/
theorem c9_host_raw_stderr_counterexample :
    (containsSub (execute_npm_commands_host ⟨"t1", "main", "S", "E"⟩
        ⟨.exited 0 "hello" "oops", .exited 0 "" "", .exited 0 "" "", [("a.vsix", 1)]⟩
        initialTaskState).st.logs "oops" = true) ∧
    (containsSub (execute_npm_commands_host ⟨"t1", "main", "S", "E"⟩
        ⟨.exited 0 "hello" "oops", .exited 0 "" "", .exited 0 "" "", [("a.vsix", 1)]⟩
        initialTaskState).st.logs "[stderr]" = false) ∧
    (containsSub (execute_npm_commands ⟨"t1", "main", "S", "E"⟩
        ⟨.exited 0 "hello" "oops", .exited 0 "" "", .exited 0 "" "", [("a.vsix", 1)]⟩
        initialTaskState).st.logs "[stderr] oops" = true) := by
  refine ⟨by decide, by decide, by decide⟩

end VsixBuild
